import Mathlib

/-!
Verification development for the Store Provisioning Platform.

The repository has two source files:
* `src/controller/operator.py` — a kopf-based Kubernetes operator that
  reconciles `Store` custom resources (namespace isolation, admin secret,
  helm release, status/event bookkeeping, finalizer protocol).
* `src/apps/api/main.py` — a FastAPI request layer that creates, lists and
  deletes `Store` resources with rate limits and quotas.

The embedding below models the cluster as an explicit `World` value threaded
through every operation.  External effects are modelled as follows:
* Kubernetes API calls against namespaces / secrets / quota objects consult a
  fault-injection stream (`World.faults`): an injected `(status, message)`
  pair models the call raising `ApiException(status)`; otherwise the call
  acts on the recorded cluster state.
* The helm subprocess result comes from a result stream
  (`World.helmResults`), giving `(returncode, stdout, stderr)` per
  invocation, exactly the data `run_helm` inspects.
* `secrets.choice` randomness comes from a stream `World.rng`; characters
  are drawn from the same alphanumeric alphabet as the source.
* Wall-clock time is a counter (`World.clock`); `now_iso()` renders and
  advances it.  Timestamps are opaque strings to every claim proved here.
* The custom-object status / finalizer patches operate on the single store
  resource under reconciliation (`World.store`), which is assumed to exist
  for the duration of a handler invocation (the 404-swallowing branches of
  `_safe_patch_store_status` / `remove_finalizer` concern a resource deleted
  mid-flight, which no claim here exercises).
* Secret payloads are modelled as the decoded strings (`V1Secret.string_data`
  / base64-decoded `data`), since the source round-trips through base64.

Environment-variable configuration is fixed at the source defaults.
-/

namespace StorePlatform

/-! ## Configuration constants (source defaults of the env-var lookups) -/

def PLATFORM_NAMESPACE : String := "store-platform"
def BASE_DOMAIN : String := "127.0.0.1.nip.io"
def URL_SCHEME : String := "http"
def INGRESS_CLASS : String := "nginx"
/-- `STORE_NS_PREFIX` in the source. -/
def STORE_NS_PRE : String := "store-"
def STORAGE_CLASS : String := ""
def MAX_PROVISION_SECONDS : Nat := 900
def MAX_CONCURRENT_PROVISIONS : Nat := 2
def MAX_STATUS_EVENTS : Nat := 20
def CHART_WOOCOMMERCE : String := "/charts/woocommerce"
def CHART_MEDUSA : String := "/charts/medusa"
def FINALIZER : String := "stores.urumi.ai/finalizer"
def STORE_MANAGED_LABEL : String := "urumi.ai/managed-store"
def STORE_ID_LABEL : String := "urumi.ai/storeId"
def ADMIN_SECRET_NAME : String := "store-admin"

/-! ## String-keyed dictionaries (Python `dict` with insertion order) -/

/-- `d.get(k)`. -/
def dictGet {α : Type} (d : List (String × α)) (k : String) : Option α :=
  match d with
  | [] => none
  | p :: rest => if p.1 = k then some p.2 else dictGet rest k

/-- `d[k] = v`: replace the first binding of `k`, else append. -/
def dictSet {α : Type} (d : List (String × α)) (k : String) (v : α) :
    List (String × α) :=
  match d with
  | [] => [(k, v)]
  | p :: rest => if p.1 = k then (k, v) :: rest else p :: dictSet rest k v

/-- `d.pop(k, None)` (as far as the remaining dict is concerned). -/
def dictPop {α : Type} (d : List (String × α)) (k : String) :
    List (String × α) :=
  d.filter (fun p => p.1 ≠ k)

/-- `k in d`. -/
def dictHas {α : Type} (d : List (String × α)) (k : String) : Bool :=
  d.any (fun p => p.1 = k)

/-- `d.update(upd)` (merge, right operand wins). -/
def dictUpdate {α : Type} (d upd : List (String × α)) : List (String × α) :=
  upd.foldl (fun acc kv => dictSet acc kv.1 kv.2) d

theorem dictGet_dictSet {α : Type} (d : List (String × α)) (k k' : String)
    (v : α) :
    dictGet (dictSet d k v) k' = if k' = k then some v else dictGet d k' := by
  induction d with
  | nil =>
    by_cases h : k' = k
    · subst h; simp [dictSet, dictGet]
    · have h' : ¬ k = k' := fun h2 => h h2.symm
      simp [dictSet, dictGet, h, h']
  | cons p rest ih =>
    by_cases hp : p.1 = k
    · by_cases h : k' = k
      · subst h; simp [dictSet, dictGet, hp]
      · have h' : ¬ k = k' := fun h2 => h h2.symm
        have hp' : ¬ p.1 = k' := fun h2 => h (h2.symm.trans hp)
        simp [dictSet, dictGet, hp, h, h', hp']
    · by_cases h : p.1 = k'
      · have hk : ¬ k' = k := fun h2 => hp (h.trans h2)
        simp [dictSet, dictGet, hp, h, hk]
      · simp [dictSet, dictGet, hp, h, ih]

theorem dictGet_dictPop {α : Type} (d : List (String × α)) (k k' : String) :
    dictGet (dictPop d k) k' = if k' = k then none else dictGet d k' := by
  induction d with
  | nil => by_cases h : k' = k <;> simp [dictPop, dictGet, h]
  | cons p rest ih =>
    simp only [dictPop, List.filter_cons, ne_eq, decide_not] at ih ⊢
    by_cases hp : p.1 = k
    · by_cases h : k' = k
      · subst h; simp [hp, dictGet, ih]
      · have hp' : ¬ p.1 = k' := fun h2 => h (h2.symm.trans hp)
        have hk' : ¬ k = k' := fun h2 => h h2.symm
        simp [hp, dictGet, h, hp', hk', ih]
    · by_cases h : p.1 = k'
      · have hk : ¬ k' = k := fun h2 => hp (h.trans h2)
        simp [hp, dictGet, h, hk]
      · simp [hp, dictGet, h, ih]

/-! ## Status values and events -/

/-- One record of `status.events`: `{type, message, timestamp}`. -/
structure StoreEvent where
  type : String
  message : String
  timestamp : String
deriving DecidableEq, Repr

/-- A value stored in the `status` dict of a Store resource. -/
inductive StatusVal where
  | s (v : String)
  | i (v : Int)
  | evs (v : List StoreEvent)
deriving DecidableEq, Repr

/-- Python `events[-n:]` for the positive capacity used by the source. -/
def lastN {α : Type} (n : Nat) (l : List α) : List α :=
  l.drop (l.length - n)

/-- `current.get("events", []) or []`, reading the events list out of a
status dict (non-list junk under the key behaves as no history; every status
the controller itself writes stores a list there). -/
def getEventsList (st : List (String × StatusVal)) : List StoreEvent :=
  match dictGet st "events" with
  | some (StatusVal.evs l) => l
  | _ => []

/-! ## Errors and the effect model -/

/-- The exception kinds the controller raises or observes:
`ApiException(status)`, `RuntimeError` (from `run_helm`),
`kopf.PermanentError` and `kopf.TemporaryError(delay=...)`. -/
inductive Err where
  | api (status : Nat) (msg : String)
  | runtime (msg : String)
  | permanent (msg : String)
  | temporary (msg : String) (delay : Nat)
deriving DecidableEq, Repr

/-- `str(e)` as used for `lastError` / event messages. -/
def Err.message : Err → String
  | .api _ m => m
  | .runtime m => m
  | .permanent m => m
  | .temporary m _ => m

/-- `isinstance(e, ApiException) and e.status == c`. -/
def Err.isApiCode (e : Err) (c : Nat) : Bool :=
  match e with
  | .api s _ => s == c
  | _ => false

/-- Trace of externally visible operations performed by a handler run. -/
inductive Call where
  | acquireGate (timeout : Nat) (ok : Bool)
  | releaseGate
  | readNamespaceCall (ns : String)
  | createNamespaceCall (ns : String)
  | patchNamespaceCall (ns : String)
  | deleteNamespaceCall (ns : String)
  | readSecretCall (ns name : String)
  | createSecretCall (ns name : String)
  | patchSecretCall (ns name : String)
  | quotaCall (ns op : String)
  | limitRangeCall (ns op : String)
  | netPolicyCall (ns which op : String)
  | helmCall (args : List String) (timeout : Nat)
  | statusPatchCall (name : String)
  | finalizerPatchCall (name : String)
deriving DecidableEq, Repr

/-- A cluster namespace: name plus its label dict. -/
structure KNamespace where
  name : String
  labels : List (String × String)
deriving DecidableEq, Repr

/-- A cluster secret (payload as decoded strings). -/
structure KSecret where
  name : String
  ns : String
  data : List (String × String)
deriving DecidableEq, Repr

/-- The `spec` of a Store resource (fields the controller reads). -/
structure StoreSpec where
  engine : Option String := none
  storeId : Option String := none
deriving DecidableEq, Repr

/-- The `metadata` fields the handlers read. -/
structure Meta where
  generation : Option Int := none
  deletionTimestamp : Option String := none
deriving DecidableEq, Repr

/-- The Store custom resource under reconciliation. -/
structure StoreObj where
  name : String
  finalizers : List String
  status : List (String × StatusVal)
deriving DecidableEq, Repr

/-- The whole modelled state: cluster contents, the one store resource, the
provisioning semaphore's available permits, the clock, the oracle streams for
faults / helm results / randomness, and the trace of performed calls. -/
structure World where
  store : StoreObj
  namespaces : List KNamespace
  secrets : List KSecret
  permits : Nat
  clock : Nat
  rng : Nat → Nat
  rngUsed : Nat
  faults : Nat → Option (Nat × String)
  faultIdx : Nat
  helmResults : Nat → Nat × String × String
  helmUsed : Nat
  trace : List Call

/-! ## Derived names (`store_namespace`, `store_host`, `store_url`) -/

def store_namespace (store_id : String) : String := STORE_NS_PRE ++ store_id

def store_host (store_id : String) : String := store_id ++ "." ++ BASE_DOMAIN

def store_url (store_id : String) : String :=
  URL_SCHEME ++ "://" ++ store_host store_id

/-! ## Low-level cluster primitives.

Every Kubernetes API call first consults the fault stream (modelling an
`ApiException` raised by the client); a non-faulted call appends itself to
the trace and acts on the recorded state. -/

def read_namespace (ns : String) (w : World) :
    Except Err KNamespace × World :=
  let fo := w.faults w.faultIdx
  ((match fo with
    | some p => Except.error (Err.api p.1 p.2)
    | none =>
      match w.namespaces.find? (fun n => n.name == ns) with
      | some n => Except.ok n
      | none => Except.error (Err.api 404 ("namespace " ++ ns ++ " not found"))),
   { w with faultIdx := w.faultIdx + 1,
            trace := w.trace ++
              (match fo with
               | some _ => []
               | none => [Call.readNamespaceCall ns]) })

def create_namespace (ns : String) (labels : List (String × String))
    (w : World) : Except Err Unit × World :=
  let fo := w.faults w.faultIdx
  let already := w.namespaces.any (fun n => n.name == ns)
  ((match fo with
    | some p => Except.error (Err.api p.1 p.2)
    | none =>
      if already then Except.error (Err.api 409 "namespace already exists")
      else Except.ok ()),
   { w with faultIdx := w.faultIdx + 1,
            trace := w.trace ++
              (match fo with
               | some _ => []
               | none => [Call.createNamespaceCall ns]),
            namespaces := w.namespaces ++
              (match fo with
               | some _ => []
               | none => if already then [] else [KNamespace.mk ns labels]) })

def patch_namespace (ns : String) (labels : List (String × String))
    (w : World) : Except Err Unit × World :=
  let fo := w.faults w.faultIdx
  let already := w.namespaces.any (fun n => n.name == ns)
  ((match fo with
    | some p => Except.error (Err.api p.1 p.2)
    | none =>
      if already then Except.ok ()
      else Except.error (Err.api 404 "namespace not found")),
   { w with faultIdx := w.faultIdx + 1,
            trace := w.trace ++
              (match fo with
               | some _ => []
               | none => [Call.patchNamespaceCall ns]),
            namespaces :=
              match fo with
              | some _ => w.namespaces
              | none => w.namespaces.map
                  (fun n => if n.name == ns then { n with labels := labels } else n) })

def delete_namespace (ns : String) (w : World) : Except Err Unit × World :=
  let fo := w.faults w.faultIdx
  let already := w.namespaces.any (fun n => n.name == ns)
  ((match fo with
    | some p => Except.error (Err.api p.1 p.2)
    | none =>
      if already then Except.ok ()
      else Except.error (Err.api 404 "namespace not found")),
   { w with faultIdx := w.faultIdx + 1,
            trace := w.trace ++
              (match fo with
               | some _ => []
               | none => [Call.deleteNamespaceCall ns]),
            namespaces :=
              match fo with
              | some _ => w.namespaces
              | none => w.namespaces.filter (fun n => n.name != ns) })

def read_secret (name ns : String) (w : World) : Except Err KSecret × World :=
  let fo := w.faults w.faultIdx
  ((match fo with
    | some p => Except.error (Err.api p.1 p.2)
    | none =>
      match w.secrets.find? (fun s => s.name == name && s.ns == ns) with
      | some s => Except.ok s
      | none => Except.error (Err.api 404 ("secret " ++ name ++ " not found"))),
   { w with faultIdx := w.faultIdx + 1,
            trace := w.trace ++
              (match fo with
               | some _ => []
               | none => [Call.readSecretCall ns name]) })

def create_secret (ns : String) (s : KSecret) (w : World) :
    Except Err Unit × World :=
  let fo := w.faults w.faultIdx
  let already := w.secrets.any (fun x => x.name == s.name && x.ns == ns)
  ((match fo with
    | some p => Except.error (Err.api p.1 p.2)
    | none =>
      if already then Except.error (Err.api 409 "secret already exists")
      else Except.ok ()),
   { w with faultIdx := w.faultIdx + 1,
            trace := w.trace ++
              (match fo with
               | some _ => []
               | none => [Call.createSecretCall ns s.name]),
            secrets := w.secrets ++
              (match fo with
               | some _ => []
               | none => if already then [] else [s]) })

/-- `patch_namespaced_secret` with a `stringData` body: merges the given
keys into the existing secret payload. -/
def patch_secret (name ns : String) (data : List (String × String))
    (w : World) : Except Err Unit × World :=
  let fo := w.faults w.faultIdx
  let already := w.secrets.any (fun x => x.name == name && x.ns == ns)
  ((match fo with
    | some p => Except.error (Err.api p.1 p.2)
    | none =>
      if already then Except.ok ()
      else Except.error (Err.api 404 "secret not found")),
   { w with faultIdx := w.faultIdx + 1,
            trace := w.trace ++
              (match fo with
               | some _ => []
               | none => [Call.patchSecretCall ns name]),
            secrets :=
              match fo with
              | some _ => w.secrets
              | none => w.secrets.map
                  (fun x => if x.name == name && x.ns == ns then
                     { x with data := dictUpdate x.data data } else x) })

/-- A quota / limit-range / network-policy API call: these objects are not
tracked in the state beyond the trace; the call can still fault. -/
def cluster_side_call (c : Call) (w : World) : Except Err Unit × World :=
  let fo := w.faults w.faultIdx
  ((match fo with
    | some p => Except.error (Err.api p.1 p.2)
    | none => Except.ok ()),
   { w with faultIdx := w.faultIdx + 1,
            trace := w.trace ++
              (match fo with
               | some _ => []
               | none => [c]) })

/-- `subprocess.run([HELM_BIN] + args, ...)`: the next entry of the helm
result stream is this invocation's `(returncode, stdout, stderr)`. -/
def helm_exec (args : List String) (timeout : Nat) (w : World) :
    (Nat × String × String) × World :=
  (w.helmResults w.helmUsed,
   { w with helmUsed := w.helmUsed + 1,
            trace := w.trace ++ [Call.helmCall args timeout] })

/-- `run_helm`: raise `RuntimeError("helm failed: ...")` on non-zero exit. -/
def run_helm (args : List String) (timeout : Nat) (w : World) :
    Except Err String × World :=
  let r := helm_exec args timeout w
  let rc := r.1.1
  let out := r.1.2.1
  let errS := r.1.2.2
  ((if rc ≠ 0 then
      let details :=
        if errS.trim ≠ "" then errS.trim
        else if out.trim ≠ "" then out.trim
        else "unknown error"
      Except.error (Err.runtime ("helm failed: " ++ details))
    else Except.ok out.trim),
   r.2)

/-! ## The concurrency gate (`threading.BoundedSemaphore`) -/

/-- `_provision_semaphore.acquire(timeout=...)`: in this single-threaded
model the bounded wait succeeds exactly when a permit is available. -/
def sem_acquire (timeout : Nat) (w : World) : Bool × World :=
  let ok := w.permits != 0
  (ok, { w with permits := w.permits - (if ok then 1 else 0),
                trace := w.trace ++ [Call.acquireGate timeout ok] })

/-- `_provision_semaphore.release()`. -/
def sem_release (w : World) : World :=
  { w with permits := w.permits + 1, trace := w.trace ++ [Call.releaseGate] }

/-! ## Randomness (`rand_password`) -/

/-- `string.ascii_letters + string.digits`. -/
def passwordAlphabet : List Char :=
  (List.range 26).map (fun i => Char.ofNat (97 + i)) ++
  (List.range 26).map (fun i => Char.ofNat (65 + i)) ++
  (List.range 10).map (fun i => Char.ofNat (48 + i))

/-- One `secrets.choice(alphabet)` draw fed by the rng stream. -/
def secretsChoice (r : Nat) : Char :=
  passwordAlphabet.getD (r % passwordAlphabet.length) (Char.ofNat 97)

/-- `rand_password(n)`: `n` alphanumeric characters. -/
def rand_password (n : Nat) (w : World) : String × World :=
  (String.mk ((List.range n).map (fun i => secretsChoice (w.rng (w.rngUsed + i)))),
   { w with rngUsed := w.rngUsed + n })

/-! ## Status subresource bookkeeping (`patch_store_status`) -/

/-- The `set_fields` loop of `patch_store_status`: `None` values pop the
key, others set it. -/
def applySetFields (st : List (String × StatusVal))
    (sf : List (String × Option StatusVal)) : List (String × StatusVal) :=
  sf.foldl
    (fun acc kv =>
      match kv.2 with
      | none => dictPop acc kv.1
      | some v => dictSet acc kv.1 v)
    st

/-- The pure body of `patch_store_status`: phase, `set_fields`,
`drop_fields`, `createdAt`/`updatedAt` stamps, and the bounded event ring
buffer (`events[-MAX_STATUS_EVENTS:]`).  Returns the new status dict and the
advanced clock (each `now_iso()` call consumes a tick). -/
def patchStatusDict (status : List (String × StatusVal))
    (phase : Option String) (event_type : Option String)
    (event_message : Option String)
    (set_fields : List (String × Option StatusVal))
    (drop_fields : List String) (clock : Nat) :
    List (String × StatusVal) × Nat :=
  let c1 := match phase with
    | some p => dictSet status "phase" (StatusVal.s p)
    | none => status
  let c2 := applySetFields c1 set_fields
  let c3 := drop_fields.foldl dictPop c2
  let r4 := if dictHas c3 "createdAt" then (c3, clock)
    else (dictSet c3 "createdAt" (StatusVal.s (toString clock)), clock + 1)
  let c5 := dictSet r4.1 "updatedAt" (StatusVal.s (toString r4.2))
  let t2 := r4.2 + 1
  let evs := getEventsList c5
  let r6 := match event_type with
    | some et =>
      (lastN MAX_STATUS_EVENTS
        (evs ++ [StoreEvent.mk et (event_message.getD "") (toString t2)]),
       t2 + 1)
    | none => (evs, t2)
  (dictSet c5 "events" (StatusVal.evs r6.1), r6.2)

/-- `patch_store_status(name, phase=..., event_type=..., event_message=...,
set_fields=..., drop_fields=...)` on the store resource.  Status writes are
modelled as reliable (the resource exists for the duration of the handler),
so the operation returns the new world directly. -/
def patch_store_status (name : String) (phase : Option String)
    (event_type : Option String) (event_message : Option String)
    (set_fields : List (String × Option StatusVal))
    (drop_fields : List String) (w : World) : World :=
  let r := patchStatusDict w.store.status phase event_type event_message
    set_fields drop_fields w.clock
  { w with store := { w.store with status := r.1 },
           clock := r.2,
           trace := w.trace ++ [Call.statusPatchCall name] }

/-! ## Finalizer protocol (custom-object patches, modelled as reliable) -/

/-- `add_finalizer`: no-op if already present, else patch it in. -/
def add_finalizer (name : String) (w : World) : World :=
  if FINALIZER ∈ w.store.finalizers then w
  else
    { w with store := { w.store with
               finalizers := w.store.finalizers ++ [FINALIZER] },
             trace := w.trace ++ [Call.finalizerPatchCall name] }

/-- `remove_finalizer`: no-op if absent, else patch it out. -/
def remove_finalizer (name : String) (w : World) : World :=
  if FINALIZER ∈ w.store.finalizers then
    { w with store := { w.store with
               finalizers := w.store.finalizers.filter (fun f => f ≠ FINALIZER) },
             trace := w.trace ++ [Call.finalizerPatchCall name] }
  else w

/-! ## Namespace isolation manager -/

/-- `ensure_namespace(ns, store_id)`: read; patch labels in when any
ownership label is missing or different; create on 404. -/
def ensure_namespace (ns store_id : String) (w : World) :
    Except Err Unit × World :=
  let labels : List (String × String) :=
    [(STORE_MANAGED_LABEL, "true"), (STORE_ID_LABEL, store_id)]
  match read_namespace ns w with
  | (Except.ok existing, w1) =>
    if labels.any (fun kv => dictGet existing.labels kv.1 ≠ some kv.2) then
      patch_namespace ns (dictUpdate existing.labels labels) w1
    else (Except.ok (), w1)
  | (Except.error e, w1) =>
    if e.isApiCode 404 then create_namespace ns labels w1
    else (Except.error e, w1)

/-- `apply_resourcequota`: create, falling back to patch on 409. -/
def apply_resourcequota (ns : String) (w : World) : Except Err Unit × World :=
  match cluster_side_call (Call.quotaCall ns "create") w with
  | (Except.ok _, w1) => (Except.ok (), w1)
  | (Except.error e, w1) =>
    if e.isApiCode 409 then cluster_side_call (Call.quotaCall ns "patch") w1
    else (Except.error e, w1)

/-- `apply_limitrange`: create, falling back to patch on 409. -/
def apply_limitrange (ns : String) (w : World) : Except Err Unit × World :=
  match cluster_side_call (Call.limitRangeCall ns "create") w with
  | (Except.ok _, w1) => (Except.ok (), w1)
  | (Except.error e, w1) =>
    if e.isApiCode 409 then cluster_side_call (Call.limitRangeCall ns "patch") w1
    else (Except.error e, w1)

/-- `apply_networkpolicy_default_deny`: create, patch on 409. -/
def apply_networkpolicy_default_deny (ns : String) (w : World) :
    Except Err Unit × World :=
  match cluster_side_call (Call.netPolicyCall ns "default-deny" "create") w with
  | (Except.ok _, w1) => (Except.ok (), w1)
  | (Except.error e, w1) =>
    if e.isApiCode 409 then
      cluster_side_call (Call.netPolicyCall ns "default-deny" "patch") w1
    else (Except.error e, w1)

/-- `apply_networkpolicy_allow_required`: create, patch on 409. -/
def apply_networkpolicy_allow_required (ns : String) (w : World) :
    Except Err Unit × World :=
  match cluster_side_call (Call.netPolicyCall ns "allow-required" "create") w with
  | (Except.ok _, w1) => (Except.ok (), w1)
  | (Except.error e, w1) =>
    if e.isApiCode 409 then
      cluster_side_call (Call.netPolicyCall ns "allow-required" "patch") w1
    else (Except.error e, w1)

/-- `ensure_namespace_resources`: quota and limit-range failures propagate;
network-policy failures are swallowed (best-effort isolation). -/
def ensure_namespace_resources (ns : String) (w : World) :
    Except Err Unit × World :=
  match apply_resourcequota ns w with
  | (Except.error e, w1) => (Except.error e, w1)
  | (Except.ok _, w1) =>
    match apply_limitrange ns w1 with
    | (Except.error e, w2) => (Except.error e, w2)
    | (Except.ok _, w2) =>
      match apply_networkpolicy_default_deny ns w2 with
      | (Except.error _, w3) => (Except.ok (), w3)
      | (Except.ok _, w3) =>
        match apply_networkpolicy_allow_required ns w3 with
        | (Except.error _, w4) => (Except.ok (), w4)
        | (Except.ok _, w4) => (Except.ok (), w4)

/-! ## Credential manager -/

/-- The generation branch of `ensure_admin_secret`: fixed username, fresh
random password, create-or-patch (409 falls back to patch). -/
def ensure_admin_secret_generate (ns store_id : String) (w : World) :
    Except Err (String × String) × World :=
  let username := "admin"
  let r := rand_password 20 w
  let password := r.1
  let data : List (String × String) :=
    [("username", username), ("password", password), ("storeId", store_id)]
  match create_secret ns (KSecret.mk ADMIN_SECRET_NAME ns data) r.2 with
  | (Except.ok _, w3) => (Except.ok (username, password), w3)
  | (Except.error e, w3) =>
    if e.isApiCode 409 then
      match patch_secret ADMIN_SECRET_NAME ns data w3 with
      | (Except.ok _, w4) => (Except.ok (username, password), w4)
      | (Except.error e2, w4) => (Except.error e2, w4)
    else (Except.error e, w3)

/-- `ensure_admin_secret(ns, store_id)`: return the stored pair when both
fields exist and are non-empty; otherwise generate and store. -/
def ensure_admin_secret (ns store_id : String) (w : World) :
    Except Err (String × String) × World :=
  match read_secret ADMIN_SECRET_NAME ns w with
  | (Except.ok sec, w1) =>
    match dictGet sec.data "username", dictGet sec.data "password" with
    | some u, some p =>
      if u ≠ "" ∧ p ≠ "" then (Except.ok (u, p), w1)
      else ensure_admin_secret_generate ns store_id w1
    | _, _ => ensure_admin_secret_generate ns store_id w1
  | (Except.error e, w1) =>
    if e.isApiCode 404 then ensure_admin_secret_generate ns store_id w1
    else (Except.error e, w1)

/-! ## Namespace ownership check -/

/-- `_namespace_is_owned(ns, store_id)`: prefix check, then the exact
ownership label pair; a 404 read is `False`. -/
def namespace_is_owned (ns store_id : String) (w : World) :
    Except Err Bool × World :=
  if ¬ STORE_NS_PRE.data.isPrefixOf ns.data then (Except.ok false, w)
  else
    match read_namespace ns w with
    | (Except.ok nsObj, w1) =>
      (Except.ok (dictGet nsObj.labels STORE_MANAGED_LABEL == some "true" &&
                  dictGet nsObj.labels STORE_ID_LABEL == some store_id), w1)
    | (Except.error e, w1) =>
      if e.isApiCode 404 then (Except.ok false, w1)
      else (Except.error e, w1)

/-! ## Engine handler registry -/

structure EngineHandler where
  name : String
  chart_path : String
deriving DecidableEq, Repr

def EngineHandler.build_release_name (h : EngineHandler) (store_id : String) :
    String :=
  h.name ++ "-" ++ store_id

/-- The ordered helm argument list per engine (`build_helm_args`). -/
def EngineHandler.build_helm_args (h : EngineHandler)
    (store_id ns host admin_user admin_password : String) : List String :=
  let timeoutArg := "--timeout=" ++ toString MAX_PROVISION_SECONDS ++ "s"
  if h.name = "woocommerce" then
    ["upgrade", "--install", h.build_release_name store_id, h.chart_path,
     "-n", ns, "--wait", timeoutArg,
     "--set", "wordpress.ingress.enabled=true",
     "--set-string", "wordpress.ingress.ingressClassName=" ++ INGRESS_CLASS,
     "--set-string", "wordpress.ingress.hostname=" ++ host,
     "--set-string", "wordpress.service.type=ClusterIP",
     "--set-string", "wordpress.wordpressUsername=" ++ admin_user,
     "--set-string", "wordpress.wordpressPassword=" ++ admin_password,
     "--set-string", "wordpress.wordpressEmail=admin@" ++ host,
     "--set-string", "wordpress.wordpressBlogName=" ++ store_id,
     "--set-string", "wordpress.wordpressPlugins=woocommerce"] ++
    (if STORAGE_CLASS ≠ "" then
       ["--set-string",
        "wordpress.persistence.storageClass=" ++ STORAGE_CLASS,
        "--set-string",
        "wordpress.mariadb.primary.persistence.storageClass=" ++ STORAGE_CLASS]
     else [])
  else
    ["upgrade", "--install", h.build_release_name store_id, h.chart_path,
     "-n", ns, "--wait", timeoutArg,
     "--set-string", "ingress.className=" ++ INGRESS_CLASS,
     "--set-string", "ingress.hostname=" ++ host]

def woocommerceHandler : EngineHandler :=
  EngineHandler.mk "woocommerce" CHART_WOOCOMMERCE

def medusaHandler : EngineHandler := EngineHandler.mk "medusa" CHART_MEDUSA

def ENGINE_HANDLERS : List (String × EngineHandler) :=
  [("woocommerce", woocommerceHandler), ("medusa", medusaHandler)]

/-- `ENGINE_HANDLERS.get(engine)`. -/
def engineHandlersGet (engine : String) : Option EngineHandler :=
  dictGet ENGINE_HANDLERS engine

/-! ## The reconcile state machine -/

/-- `f"Unsupported engine '{engine}'"`. -/
def unsupportedEngineMsg (engine : String) : String :=
  "Unsupported engine " ++ "'" ++ engine ++ "'"

/-- The body of `reconcile_store`'s `try:` block once the gate is held:
status event, namespace setup, admin secret, helm install, post-ready hook
(a no-op for both engines), final `Ready` status write. -/
def reconcile_gated (name store_id store_ns host release : String)
    (handler : EngineHandler) (generation : Int) (w : World) :
    Except Err (List (String × String)) × World :=
  let w1 := patch_store_status name none (some "NamespaceReady")
    (some ("Ensuring namespace " ++ store_ns))
    [("namespace", some (StatusVal.s store_ns))] [] w
  match ensure_namespace store_ns store_id w1 with
  | (Except.error e, w2) => (Except.error e, w2)
  | (Except.ok _, w2) =>
  match ensure_namespace_resources store_ns w2 with
  | (Except.error e, w3) => (Except.error e, w3)
  | (Except.ok _, w3) =>
  match ensure_admin_secret store_ns store_id w3 with
  | (Except.error e, w4) => (Except.error e, w4)
  | (Except.ok admin, w4) =>
  let w5 := patch_store_status name none (some "HelmInstallStarted")
    (some ("Installing/upgrading release " ++ release)) [] [] w4
  let helm_args :=
    handler.build_helm_args store_id store_ns host admin.1 admin.2
  match run_helm helm_args (MAX_PROVISION_SECONDS + 60) w5 with
  | (Except.error e, w6) => (Except.error e, w6)
  | (Except.ok _, w6) =>
  let readyTs := toString w6.clock
  let w6a : World := { w6 with clock := w6.clock + 1 }
  let w7 := patch_store_status name (some "Ready") (some "Ready")
    (some ("Store ready at " ++ store_url store_id))
    [("url", some (StatusVal.s (store_url store_id))),
     ("readyAt", some (StatusVal.s readyTs)),
     ("releaseName", some (StatusVal.s release)),
     ("namespace", some (StatusVal.s store_ns)),
     ("observedGeneration", some (StatusVal.i generation)),
     ("lastError", none)]
    ["adminPassword", "adminUser"] w6a
  (Except.ok [("namespace", store_ns), ("host", host),
              ("releaseName", release)], w7)

/-- The `except Exception` handler of the gated section: write `Failed`
(retaining release / namespace / observedGeneration), then re-raise. -/
def reconcile_failed_write (name store_ns release : String)
    (generation : Int) (e : Err) (w : World) :
    Except Err (List (String × String)) × World :=
  (Except.error e,
   patch_store_status name (some "Failed") (some "Failed") (some e.message)
     [("lastError", some (StatusVal.s e.message)),
      ("releaseName", some (StatusVal.s release)),
      ("namespace", some (StatusVal.s store_ns)),
      ("observedGeneration", some (StatusVal.i generation))]
     ["adminPassword", "adminUser"] w)

/-- `try: ... except: ... finally: _provision_semaphore.release()` around
the gated section. -/
def reconcile_guarded (name store_id store_ns host release : String)
    (handler : EngineHandler) (generation : Int) (w : World) :
    Except Err (List (String × String)) × World :=
  let inner :=
    match reconcile_gated name store_id store_ns host release handler
        generation w with
    | (Except.ok r, w1) => (Except.ok r, w1)
    | (Except.error e, w1) =>
      reconcile_failed_write name store_ns release generation e w1
  (inner.1, sem_release inner.2)

/-- `reconcile_store(name, namespace, spec, meta, logger)`. -/
def reconcile_store (name ns : String) (spec : StoreSpec) (meta : Meta)
    (w : World) : Except Err (List (String × String)) × World :=
  if ns ≠ PLATFORM_NAMESPACE then (Except.ok [], w)
  else
    let engine := spec.engine.getD "woocommerce"
    match engineHandlersGet engine with
    | none =>
      (Except.error (Err.permanent (unsupportedEngineMsg engine)),
       patch_store_status name (some "Failed") (some "Failed")
         (some (unsupportedEngineMsg engine))
         [("lastError", some (StatusVal.s (unsupportedEngineMsg engine)))] [] w)
    | some handler =>
      let store_id := spec.storeId.getD name
      let store_ns := store_namespace store_id
      let host := store_host store_id
      let release := handler.build_release_name store_id
      let generation := meta.generation.getD 0
      let w1 := add_finalizer name w
      let w2 := patch_store_status name (some "Provisioning")
        (some "ProvisioningStarted")
        (some ("Starting reconcile for " ++ engine))
        [("url", some (StatusVal.s (store_url store_id))),
         ("namespace", some (StatusVal.s store_ns)),
         ("releaseName", some (StatusVal.s release)),
         ("observedGeneration", some (StatusVal.i generation)),
         ("lastError", none)]
        ["adminPassword", "adminUser"] w1
      let acq := sem_acquire MAX_PROVISION_SECONDS w2
      if acq.1 then
        reconcile_guarded name store_id store_ns host release handler
          generation acq.2
      else
        (Except.error (Err.temporary "Provisioning lock timeout" 15),
         patch_store_status name (some "Failed") (some "Failed")
           (some "Provisioning lock timeout")
           [("lastError", some (StatusVal.s "Provisioning lock timeout"))] []
           acq.2)

/-- `on_create`: delegates to `reconcile_store`. -/
def on_create (name ns : String) (spec : StoreSpec) (meta : Meta)
    (w : World) : Except Err (List (String × String)) × World :=
  reconcile_store name ns spec meta w

/-- `on_resume`: skip outside the platform namespace, while deleting, or on
the `Ready`/`observedGeneration == generation` fast path. -/
def on_resume (name ns : String) (spec : StoreSpec) (meta : Meta)
    (w : World) : Except Err (Option (List (String × String))) × World :=
  if ns ≠ PLATFORM_NAMESPACE then (Except.ok none, w)
  else if meta.deletionTimestamp.isSome then (Except.ok none, w)
  else if dictGet w.store.status "phase" = some (StatusVal.s "Ready") ∧
          dictGet w.store.status "observedGeneration" =
            some (StatusVal.i (meta.generation.getD 0)) then
    (Except.ok none, w)
  else
    match reconcile_store name ns spec meta w with
    | (Except.ok r, w1) => (Except.ok (some r), w1)
    | (Except.error e, w1) => (Except.error e, w1)

/-- The `try:` body of `on_delete`: status `Deleting`, best-effort helm
uninstall, owned-namespace deletion (404 tolerated), status `Deleted`. -/
def on_delete_body (name store_id store_ns release : String) (w : World) :
    Except Err Unit × World :=
  let w1 := patch_store_status name (some "Deleting") (some "Deleting")
    (some ("Deleting " ++ release))
    [("namespace", some (StatusVal.s store_ns)),
     ("releaseName", some (StatusVal.s release))] [] w
  -- best-effort uninstall: any failure is swallowed
  let w2 := (run_helm ["uninstall", release, "-n", store_ns] 300 w1).2
  match namespace_is_owned store_ns store_id w2 with
  | (Except.error e, w3) => (Except.error e, w3)
  | (Except.ok owned, w3) =>
    let afterDel :=
      if owned then
        match delete_namespace store_ns w3 with
        | (Except.ok _, w4) => (Except.ok (), w4)
        | (Except.error e, w4) =>
          if e.isApiCode 404 then (Except.ok (), w4)
          else (Except.error e, w4)
      else (Except.ok (), w3)
    match afterDel with
    | (Except.error e, w4) => (Except.error e, w4)
    | (Except.ok _, w4) =>
      (Except.ok (),
       patch_store_status name (some "Deleted") (some "Deleted")
         (some ("Deleted resources for " ++ store_id)) [] [] w4)

/-- `on_delete`: resolve the handler with a woocommerce fallback, run the
teardown body, and remove the finalizer in a `finally:` whose own failures
are only logged. -/
def on_delete (name ns : String) (spec : StoreSpec) (w : World) :
    Except Err Unit × World :=
  if ns ≠ PLATFORM_NAMESPACE then (Except.ok (), w)
  else
    let engine := spec.engine.getD "woocommerce"
    let store_id := spec.storeId.getD name
    let handler := (engineHandlersGet engine).getD woocommerceHandler
    let store_ns := store_namespace store_id
    let release := handler.build_release_name store_id
    let r := on_delete_body name store_id store_ns release w
    (r.1, remove_finalizer name r.2)

/-! ## Request layer (`src/apps/api/main.py`) -/

def MAX_ACTIVE_STORES : Nat := 5
def MAX_STORES_PER_IP : Nat := 3
def CREATE_RATE_LIMIT : Nat := 5
def RATE_WINDOW_SECONDS : Nat := 60
def EVENTS_LIMIT : Nat := 20

/-- `StoreCreateReq`: the request body; `engine` defaults to
`"woocommerce"` when omitted. -/
structure StoreCreateReq where
  engine : String := "woocommerce"
  storeId : String
deriving DecidableEq, Repr

/-- One Store item as returned by the cluster to the API
(the metadata / spec / status fields `main.py` reads). -/
structure ApiStoreItem where
  name : String
  creationTimestamp : Option String := none
  deletionTimestamp : Option String := none
  engine : Option String := none
  storeIdField : Option String := none
  requestedByIp : Option String := none
  status : List (String × StatusVal) := []
deriving DecidableEq, Repr

/-- The `StoreResp` response model. -/
structure StoreResp where
  storeId : String
  engine : String
  phase : String
  url : Option String := none
  createdAt : Option String := none
  updatedAt : Option String := none
  lastError : Option String := none
  ns : Option String := none
  releaseName : Option String := none
  events : List StoreEvent := []
deriving DecidableEq, Repr

/-- Read a string-valued status field (`status.get(k)`). -/
def statusStr (st : List (String × StatusVal)) (k : String) : Option String :=
  match dictGet st k with
  | some (StatusVal.s v) => some v
  | _ => none

/-- Python's `a or b` on optional strings (empty string is falsy). -/
def orElseStr (a b : Option String) : Option String :=
  match a with
  | some s => if s = "" then b else some s
  | none => b

/-- `_to_store_resp(item)`. -/
def to_store_resp (it : ApiStoreItem) : StoreResp :=
  { storeId :=
      match it.storeIdField with
      | some s => if s = "" then it.name else s
      | none => it.name
    engine := it.engine.getD ""
    phase := (statusStr it.status "phase").getD "Provisioning"
    url := statusStr it.status "url"
    createdAt := orElseStr (statusStr it.status "createdAt") it.creationTimestamp
    updatedAt := statusStr it.status "updatedAt"
    lastError := statusStr it.status "lastError"
    ns := statusStr it.status "namespace"
    releaseName := statusStr it.status "releaseName"
    events := (getEventsList it.status).take EVENTS_LIMIT }

/-- The API world: the caller's rate-limit deque, current time, the stores
visible on the first read, the cluster's answer to the create call
(`none` = created; `some st` = `ApiException(st)`), and the stores visible
on the re-read after a create race. -/
structure ApiWorld where
  stores : List ApiStoreItem
  bucket : List Nat
  now : Nat
  createOutcome : Option Nat := none
  storesAtRetry : List ApiStoreItem := []
deriving Repr

/-- `_get_store_or_none(store_id)` against a given store list. -/
def get_store_or_none (stores : List ApiStoreItem) (store_id : String) :
    Option ApiStoreItem :=
  stores.find? (fun it => it.name == store_id)

/-- `_check_create_rate_limit(ip)`: drop stale entries from the front of the
deque, reject at the limit, else record this request. -/
def check_create_rate_limit (ip : String) (w : ApiWorld) :
    Except (Nat × String) Unit × ApiWorld :=
  let bucket := w.bucket.dropWhile (fun t => w.now - t > RATE_WINDOW_SECONDS)
  if bucket.length ≥ CREATE_RATE_LIMIT then
    (Except.error (429,
       "Rate limit exceeded for " ++ ip ++ ": " ++ toString CREATE_RATE_LIMIT ++
       " creates/" ++ toString RATE_WINDOW_SECONDS ++ "s"),
     { w with bucket := bucket })
  else (Except.ok (), { w with bucket := bucket ++ [w.now] })

/-- `_enforce_store_quotas(items, caller_ip)`. -/
def enforce_store_quotas (items : List ApiStoreItem) (ip : String) :
    Except (Nat × String) Unit :=
  let active := items.filter (fun it => it.deletionTimestamp.isNone)
  if active.length ≥ MAX_ACTIVE_STORES then
    Except.error (409,
      "Global store quota reached (" ++ toString MAX_ACTIVE_STORES ++ ")")
  else
    let same_ip :=
      (active.filter (fun it => it.requestedByIp == some ip)).length
    if same_ip ≥ MAX_STORES_PER_IP then
      Except.error (409,
        "Per-IP store quota reached (" ++ toString MAX_STORES_PER_IP ++
        ") for " ++ ip)
    else Except.ok ()

/-- `f"StoreId '{store_id}' already exists with engine '{engine}'"`
(`None` prints as Python renders it). -/
def conflictDetail (store_id : String) (existing_engine : Option String) :
    String :=
  "StoreId " ++ "'" ++ store_id ++ "'" ++ " already exists with engine " ++
  "'" ++ existing_engine.getD "None" ++ "'"

/-- `POST /stores` (`create_store`): rate limit, idempotent-create check,
quotas, create with a 409-race re-check. -/
def create_store (req : StoreCreateReq) (ip ua : String) (w : ApiWorld) :
    Except (Nat × String) StoreResp × ApiWorld :=
  let _ := ua
  match check_create_rate_limit ip w with
  | (Except.error e, w1) => (Except.error e, w1)
  | (Except.ok _, w1) =>
    match get_store_or_none w1.stores req.storeId with
    | some existing =>
      if existing.engine ≠ some req.engine then
        (Except.error (409, conflictDetail req.storeId existing.engine), w1)
      else (Except.ok (to_store_resp existing), w1)
    | none =>
      match enforce_store_quotas w1.stores ip with
      | Except.error e => (Except.error e, w1)
      | Except.ok _ =>
        let newItem : ApiStoreItem :=
          { name := req.storeId, engine := some req.engine,
            storeIdField := some req.storeId, requestedByIp := some ip,
            status := [] }
        match w1.createOutcome with
        | none =>
          (Except.ok (to_store_resp newItem),
           { w1 with stores := w1.stores ++ [newItem] })
        | some st =>
          if st == 409 then
            match get_store_or_none w1.storesAtRetry req.storeId with
            | some existing2 =>
              if existing2.engine ≠ some req.engine then
                (Except.error
                  (409, conflictDetail req.storeId existing2.engine), w1)
              else (Except.ok (to_store_resp existing2), w1)
            | none => (Except.error (409, "StoreId already exists"), w1)
          else (Except.error (500, "K8s error"), w1)

/-! ## Helper lemmas about the status bookkeeping -/

theorem dictGet_foldl_dictPop {α : Type} (df : List String)
    (d : List (String × α)) (k : String) (h : k ∉ df) :
    dictGet (df.foldl dictPop d) k = dictGet d k := by
  induction df generalizing d with
  | nil => rfl
  | cons x xs ih =>
    simp only [List.mem_cons, not_or] at h
    simp only [List.foldl_cons]
    rw [ih _ h.2, dictGet_dictPop, if_neg h.1]

theorem dictGet_applySetFields (sf : List (String × Option StatusVal))
    (d : List (String × StatusVal)) (k : String)
    (h : ∀ kv ∈ sf, kv.1 ≠ k) :
    dictGet (applySetFields d sf) k = dictGet d k := by
  induction sf generalizing d with
  | nil => rfl
  | cons kv rest ih =>
    have hkv : kv.1 ≠ k := h kv (by simp)
    have hrest : ∀ p ∈ rest, p.1 ≠ k := fun p hp => h p (by simp [hp])
    simp only [applySetFields, List.foldl_cons] at *
    cases hv : kv.2 with
    | none => rw [ih _ hrest, dictGet_dictPop, if_neg (fun h2 => hkv h2.symm)]
    | some v => rw [ih _ hrest, dictGet_dictSet, if_neg (fun h2 => hkv h2.symm)]

/-- Reading any key other than the timestamp / event keys out of a patched
status dict sees only the phase / `set_fields` / `drop_fields` part. -/
theorem dictGet_patchStatusDict (st : List (String × StatusVal))
    (ph et em : Option String) (sf : List (String × Option StatusVal))
    (df : List String) (c : Nat) (k : String)
    (h1 : k ≠ "createdAt") (h2 : k ≠ "updatedAt") (h3 : k ≠ "events") :
    dictGet (patchStatusDict st ph et em sf df c).1 k =
      dictGet (df.foldl dictPop (applySetFields
        (match ph with
         | some p => dictSet st "phase" (StatusVal.s p)
         | none => st) sf)) k := by
  unfold patchStatusDict
  simp only []
  rw [dictGet_dictSet, if_neg h3, dictGet_dictSet, if_neg h2]
  split
  · rfl
  · rw [dictGet_dictSet, if_neg h1]

theorem getLast?_lastN_concat {α : Type} (n : Nat) (hn : 0 < n) (l : List α)
    (x : α) :
    (lastN n (l ++ [x])).getLast? = some x := by
  unfold lastN
  have hle : (l ++ [x]).length - n ≤ l.length := by
    simp only [List.length_append, List.length_cons, List.length_nil]
    omega
  rw [List.drop_append_of_le_length hle]
  exact List.getLast?_concat _

/-- Any status patch that appends an event leaves that event as the last
entry of the stored history. -/
theorem lastEvent_patchStatusDict (st : List (String × StatusVal))
    (ph : Option String) (et : String) (em : Option String)
    (sf : List (String × Option StatusVal)) (df : List String) (c : Nat) :
    ∃ ts, (getEventsList (patchStatusDict st ph (some et) em sf df c).1).getLast? =
      some (StoreEvent.mk et (em.getD "") ts) := by
  unfold patchStatusDict
  simp only [getEventsList, dictGet_dictSet, if_pos rfl]
  exact ⟨_, getLast?_lastN_concat MAX_STATUS_EVENTS (by decide) _ _⟩

theorem getEventsList_dictSet_ne (d : List (String × StatusVal)) (k : String)
    (v : StatusVal) (h : k ≠ "events") :
    getEventsList (dictSet d k v) = getEventsList d := by
  unfold getEventsList
  rw [dictGet_dictSet, if_neg (Ne.symm h)]

theorem getEventsList_dictSet_events (d : List (String × StatusVal))
    (l : List StoreEvent) :
    getEventsList (dictSet d "events" (StatusVal.evs l)) = l := by
  unfold getEventsList
  rw [dictGet_dictSet, if_pos rfl]

/-- When neither `set_fields` nor `drop_fields` touches `"events"`, the
patched history is exactly the old history plus the new record, truncated
to the most recent `MAX_STATUS_EVENTS`. -/
theorem getEventsList_patchStatusDict (st : List (String × StatusVal))
    (ph : Option String) (et : String) (em : Option String)
    (sf : List (String × Option StatusVal)) (df : List String) (c : Nat)
    (hsf : ∀ kv ∈ sf, kv.1 ≠ "events") (hdf : "events" ∉ df) :
    ∃ ts, getEventsList (patchStatusDict st ph (some et) em sf df c).1 =
      lastN MAX_STATUS_EVENTS
        (getEventsList st ++ [StoreEvent.mk et (em.getD "") ts]) := by
  have hbase : getEventsList (df.foldl dictPop (applySetFields
      (match ph with
       | some p => dictSet st "phase" (StatusVal.s p)
       | none => st) sf)) = getEventsList st := by
    have : dictGet (df.foldl dictPop (applySetFields
        (match ph with
         | some p => dictSet st "phase" (StatusVal.s p)
         | none => st) sf)) "events" = dictGet st "events" := by
      rw [dictGet_foldl_dictPop _ _ _ hdf, dictGet_applySetFields _ _ _ hsf]
      cases ph with
      | none => rfl
      | some p => rw [dictGet_dictSet, if_neg (by decide)]
    simp only [getEventsList, this]
  unfold patchStatusDict
  simp only [getEventsList_dictSet_events]
  split
  · refine ⟨toString (c + 1), ?_⟩
    rw [getEventsList_dictSet_ne _ _ _ (by decide), hbase]
  · refine ⟨toString (c + 1 + 1), ?_⟩
    rw [getEventsList_dictSet_ne _ _ _ (by decide),
      getEventsList_dictSet_ne _ _ _ (by decide), hbase]

theorem length_lastN {α : Type} (n : Nat) (l : List α) :
    (lastN n l).length = l.length - (l.length - n) := by
  simp [lastN]

/-- A concrete world used to instantiate hypotheses in witness theorems. -/
def baseWorld : World :=
  { store := { name := "acme-1", finalizers := [], status := [] },
    namespaces := [], secrets := [], permits := MAX_CONCURRENT_PROVISIONS,
    clock := 0, rng := fun _ => 0, rngUsed := 0, faults := fun _ => none,
    faultIdx := 0, helmResults := fun _ => (0, "", ""), helmUsed := 0,
    trace := [] }

/-- Calls that touch namespaces, secrets, quota/limit/network objects or
invoke the installer (the operations C2/C4 say must not happen). -/
def isProvisionOp : Call → Bool
  | .readNamespaceCall _ => true
  | .createNamespaceCall _ => true
  | .patchNamespaceCall _ => true
  | .deleteNamespaceCall _ => true
  | .readSecretCall _ _ => true
  | .createSecretCall _ _ => true
  | .patchSecretCall _ _ => true
  | .quotaCall _ _ => true
  | .limitRangeCall _ _ => true
  | .netPolicyCall _ _ _ => true
  | .helmCall _ _ => true
  | _ => false

theorem patch_store_status_world (name : String) (ph et em : Option String)
    (sf : List (String × Option StatusVal)) (df : List String) (w : World) :
    patch_store_status name ph et em sf df w =
      { w with
        store := { w.store with
                   status := (patchStatusDict w.store.status ph et em sf df
                     w.clock).1 },
        clock := (patchStatusDict w.store.status ph et em sf df w.clock).2,
        trace := w.trace ++ [Call.statusPatchCall name] } := rfl

theorem sem_acquire_world (t : Nat) (w : World) :
    sem_acquire t w =
      (w.permits != 0,
       { w with
         permits := w.permits - (if w.permits != 0 then 1 else 0),
         trace := w.trace ++ [Call.acquireGate t (w.permits != 0)] }) := rfl

theorem add_finalizer_of_mem (name : String) (w : World)
    (h : FINALIZER ∈ w.store.finalizers) :
    add_finalizer name w = w := by
  unfold add_finalizer; rw [if_pos h]

theorem add_finalizer_of_not_mem (name : String) (w : World)
    (h : FINALIZER ∉ w.store.finalizers) :
    add_finalizer name w =
      { w with
        store := { w.store with
                   finalizers := w.store.finalizers ++ [FINALIZER] },
        trace := w.trace ++ [Call.finalizerPatchCall name] } := by
  unfold add_finalizer; rw [if_neg h]

/-! ## Claim theorems -/

/-- C3: a resume event for a resource in the platform namespace with
`status.phase == "Ready"` and `status.observedGeneration` equal to
`metadata.generation` (and no deletion timestamp) returns immediately:
`reconcile_store` is not invoked and the world — status, finalizers,
cluster contents, trace — is completely unchanged. -/
theorem C3_resume_fast_path (name : String) (spec : StoreSpec) (meta : Meta)
    (w : World)
    (hphase : dictGet w.store.status "phase" = some (StatusVal.s "Ready"))
    (hgen : dictGet w.store.status "observedGeneration" =
      some (StatusVal.i (meta.generation.getD 0)))
    (hdel : meta.deletionTimestamp = none) :
    on_resume name PLATFORM_NAMESPACE spec meta w = (Except.ok none, w) := by
  unfold on_resume
  rw [if_neg (by simp), if_neg (by simp [hdel]), if_pos ⟨hphase, hgen⟩]

/-- A concrete ready resource (for the C3 witness). -/
def readyWorld : World :=
  { baseWorld with store :=
      { name := "acme-1", finalizers := [],
        status := [("phase", StatusVal.s "Ready"),
                   ("observedGeneration", StatusVal.i 0)] } }

/-- Witness for C3 at a concrete ready resource. -/
theorem C3_resume_fast_path_witness :
    on_resume "acme-1" PLATFORM_NAMESPACE {} {} readyWorld =
      (Except.ok none, readyWorld) :=
  C3_resume_fast_path "acme-1" {} {} readyWorld (by decide) (by decide) rfl

/-- C10: an absent `spec.engine` behaves exactly as `"woocommerce"` in both
`reconcile_store` and `on_delete` (so the unsupported-engine failure path is
never taken: `"woocommerce"` resolves to its registered handler); an absent
`spec.storeId` behaves exactly as the resource's metadata name; and the
request layer's `StoreCreateReq` defaults `engine` to `"woocommerce"`. -/
theorem C10_engine_and_storeId_defaults :
    (∀ (name : String) (sid : Option String) (meta : Meta) (w : World),
       reconcile_store name PLATFORM_NAMESPACE ⟨none, sid⟩ meta w =
       reconcile_store name PLATFORM_NAMESPACE ⟨some "woocommerce", sid⟩ meta w) ∧
    (∀ (name : String) (sid : Option String) (w : World),
       on_delete name PLATFORM_NAMESPACE ⟨none, sid⟩ w =
       on_delete name PLATFORM_NAMESPACE ⟨some "woocommerce", sid⟩ w) ∧
    engineHandlersGet "woocommerce" = some woocommerceHandler ∧
    (∀ (name : String) (eng : Option String) (meta : Meta) (w : World),
       reconcile_store name PLATFORM_NAMESPACE ⟨eng, none⟩ meta w =
       reconcile_store name PLATFORM_NAMESPACE ⟨eng, some name⟩ meta w) ∧
    (∀ (name : String) (eng : Option String) (w : World),
       on_delete name PLATFORM_NAMESPACE ⟨eng, none⟩ w =
       on_delete name PLATFORM_NAMESPACE ⟨eng, some name⟩ w) ∧
    (∀ s : String, ({ storeId := s } : StoreCreateReq).engine = "woocommerce") :=
  ⟨fun _ _ _ _ => rfl, fun _ _ _ => rfl, by decide, fun _ _ _ _ => rfl,
   fun _ _ _ => rfl, fun _ => rfl⟩

/-- C7: a status write that appends an event stores exactly the most recent
`MAX_STATUS_EVENTS` of the previously stored events plus the new
`{type, message, timestamp}` record (oldest dropped first); the stored list
never exceeds the capacity, and once the history is full it stays exactly at
the capacity. -/
theorem C7_events_ring_buffer (name et : String) (ph em : Option String)
    (sf : List (String × Option StatusVal)) (df : List String) (w : World)
    (hsf : ∀ kv ∈ sf, kv.1 ≠ "events") (hdf : "events" ∉ df)
    (hwf : dictGet w.store.status "events" = none ∨
           ∃ l, dictGet w.store.status "events" = some (StatusVal.evs l)) :
    ∃ ts,
      getEventsList
          (patch_store_status name ph (some et) em sf df w).store.status =
        lastN MAX_STATUS_EVENTS
          (getEventsList w.store.status ++ [StoreEvent.mk et (em.getD "") ts]) ∧
      (getEventsList
          (patch_store_status name ph (some et) em sf df w).store.status).length ≤
        MAX_STATUS_EVENTS ∧
      (MAX_STATUS_EVENTS ≤ (getEventsList w.store.status).length →
        (getEventsList
            (patch_store_status name ph (some et) em sf df w).store.status).length =
          MAX_STATUS_EVENTS) := by
  clear hwf
  obtain ⟨ts, hts⟩ := getEventsList_patchStatusDict w.store.status ph et em sf
    df w.clock hsf hdf
  refine ⟨ts, ?_, ?_, ?_⟩
  · exact hts
  · rw [show (patch_store_status name ph (some et) em sf df w).store.status =
        (patchStatusDict w.store.status ph (some et) em sf df w.clock).1 from rfl,
      hts, length_lastN]
    omega
  · intro hfull
    rw [show (patch_store_status name ph (some et) em sf df w).store.status =
        (patchStatusDict w.store.status ph (some et) em sf df w.clock).1 from rfl,
      hts, length_lastN]
    simp only [List.length_append, List.length_cons, List.length_nil]
    unfold MAX_STATUS_EVENTS at *
    omega

/-- A status already holding a full (20-entry) event history. -/
def fullHistoryStatus : List (String × StatusVal) :=
  [("events", StatusVal.evs
     (List.replicate 20 (StoreEvent.mk "Failed" "boom" "t")))]

/-- A world whose store carries a full event history (for the C7 witness). -/
def fullHistoryWorld : World :=
  { baseWorld with store :=
      { name := "acme-1", finalizers := [], status := fullHistoryStatus } }

/-- Witness for C7 at a concrete full history. -/
theorem C7_events_ring_buffer_witness :
    ∃ ts,
      getEventsList
          (patch_store_status "acme-1" none (some "Ready") (some "ok") [] []
            fullHistoryWorld).store.status =
        lastN MAX_STATUS_EVENTS
          (getEventsList fullHistoryWorld.store.status ++
           [StoreEvent.mk "Ready" "ok" ts]) ∧
      (getEventsList
          (patch_store_status "acme-1" none (some "Ready") (some "ok") [] []
            fullHistoryWorld).store.status).length ≤ MAX_STATUS_EVENTS ∧
      (MAX_STATUS_EVENTS ≤ (getEventsList fullHistoryWorld.store.status).length →
        (getEventsList
            (patch_store_status "acme-1" none (some "Ready") (some "ok") [] []
              fullHistoryWorld).store.status).length = MAX_STATUS_EVENTS) :=
  C7_events_ring_buffer "acme-1" "Ready" none (some "ok") [] [] fullHistoryWorld
    (by simp) (by simp) (Or.inr ⟨_, rfl⟩)

/-! ### C6 helper lemmas -/

theorem rand_password_length (n : Nat) (w : World) :
    ((rand_password n w).1).length = n := by
  simp [rand_password, String.length]

theorem rand_password_ne_empty (n : Nat) (hn : 0 < n) (w : World) :
    (rand_password n w).1 ≠ "" := by
  intro h
  have hl := rand_password_length n w
  rw [h] at hl
  simp [String.length] at hl
  omega

/-- When the admin secret exists with a non-empty username and password,
`ensure_admin_secret` returns the stored pair and performs only the read:
no secret write, no password generation, no state change beyond the read's
bookkeeping. -/
theorem ensure_admin_secret_reads (ns sid : String) (w : World)
    (sec : KSecret) (u p : String)
    (hf0 : w.faults w.faultIdx = none)
    (hfind : w.secrets.find?
      (fun s => s.name == ADMIN_SECRET_NAME && s.ns == ns) = some sec)
    (hu : dictGet sec.data "username" = some u)
    (hp : dictGet sec.data "password" = some p)
    (hu0 : u ≠ "") (hp0 : p ≠ "") :
    ensure_admin_secret ns sid w =
      (Except.ok (u, p),
       { w with
         faultIdx := w.faultIdx + 1,
         trace := w.trace ++ [Call.readSecretCall ns ADMIN_SECRET_NAME] }) := by
  simp only [ensure_admin_secret, read_secret, hf0, hfind, hu, hp]
  rw [if_pos ⟨hu0, hp0⟩]

/-- The generation branch when no admin secret exists: fixed username,
fresh random password, secret created. -/
theorem gen_absent (ns sid : String) (w : World)
    (hf0 : w.faults w.faultIdx = none)
    (habs : w.secrets.any
      (fun x => x.name == ADMIN_SECRET_NAME && x.ns == ns) = false) :
    ensure_admin_secret_generate ns sid w =
      (Except.ok ("admin", (rand_password 20 w).1),
       { w with
         rngUsed := w.rngUsed + 20,
         faultIdx := w.faultIdx + 1,
         trace := w.trace ++ [Call.createSecretCall ns ADMIN_SECRET_NAME],
         secrets := w.secrets ++ [KSecret.mk ADMIN_SECRET_NAME ns
           [("username", "admin"), ("password", (rand_password 20 w).1),
            ("storeId", sid)]] }) := by
  simp [ensure_admin_secret_generate, rand_password, create_secret,
    hf0, habs]

/-- The generation branch when the admin secret exists (but failed the
field check): create hits 409 and the secret is patched in place. -/
theorem gen_present (ns sid : String) (w : World) (sec : KSecret)
    (hf0 : w.faults w.faultIdx = none)
    (hf1 : w.faults (w.faultIdx + 1) = none)
    (hfind : w.secrets.find?
      (fun s => s.name == ADMIN_SECRET_NAME && s.ns == ns) = some sec) :
    ensure_admin_secret_generate ns sid w =
      (Except.ok ("admin", (rand_password 20 w).1),
       { w with
         rngUsed := w.rngUsed + 20,
         faultIdx := w.faultIdx + 2,
         trace := w.trace ++ [Call.createSecretCall ns ADMIN_SECRET_NAME,
                              Call.patchSecretCall ns ADMIN_SECRET_NAME],
         secrets := w.secrets.map
           (fun x => if x.name == ADMIN_SECRET_NAME && x.ns == ns then
              { x with
                data := dictUpdate x.data
                          [("username", "admin"),
                           ("password", (rand_password 20 w).1),
                           ("storeId", sid)] }
            else x) }) := by
  have hmem := List.mem_of_find?_eq_some hfind
  have hpred := List.find?_some hfind
  have hany : w.secrets.any
      (fun x => x.name == ADMIN_SECRET_NAME && x.ns == ns) = true :=
    List.any_eq_true.mpr ⟨sec, hmem, hpred⟩
  simp only [ensure_admin_secret_generate, rand_password, create_secret,
    hf0, hany]
  simp [patch_secret, hf1, hany, Err.isApiCode]

/-- After a generate-and-create run (no secret previously present), a
second credential call returns the same pair. -/
theorem gen_then_stable_absent (ns sid : String) (w' : World)
    (hf0 : w'.faults w'.faultIdx = none)
    (hf1 : w'.faults (w'.faultIdx + 1) = none)
    (hfind : w'.secrets.find?
      (fun s => s.name == ADMIN_SECRET_NAME && s.ns == ns) = none)
    (u p : String) (w1 : World)
    (hrun : ensure_admin_secret_generate ns sid w' =
      (Except.ok (u, p), w1)) :
    (ensure_admin_secret ns sid w1).1 = Except.ok (u, p) := by
  have habs : w'.secrets.any
      (fun x => x.name == ADMIN_SECRET_NAME && x.ns == ns) = false :=
    List.any_eq_false.mpr (List.find?_eq_none.mp hfind)
  rw [gen_absent ns sid w' hf0 habs] at hrun
  simp only [Prod.mk.injEq, Except.ok.injEq] at hrun
  obtain ⟨⟨hu, hp⟩, hw⟩ := hrun
  subst hw
  subst hu
  subst hp
  have hfind2 : (w'.secrets ++ [KSecret.mk ADMIN_SECRET_NAME ns
      [("username", "admin"), ("password", (rand_password 20 w').1),
       ("storeId", sid)]]).find?
      (fun s => s.name == ADMIN_SECRET_NAME && s.ns == ns) =
      some (KSecret.mk ADMIN_SECRET_NAME ns
        [("username", "admin"), ("password", (rand_password 20 w').1),
         ("storeId", sid)]) := by
    rw [List.find?_append, hfind]
    simp [List.find?]
  rw [ensure_admin_secret_reads ns sid _ _ "admin" (rand_password 20 w').1
    hf1 hfind2 (by simp [dictGet]) (by simp [dictGet]) (by decide)
    (rand_password_ne_empty 20 (by decide) w')]

/-- After a generate-and-patch run (secret present with bad fields), a
second credential call returns the same pair. -/
theorem gen_then_stable_present (ns sid : String) (w' : World)
    (sec : KSecret)
    (hf0 : w'.faults w'.faultIdx = none)
    (hf1 : w'.faults (w'.faultIdx + 1) = none)
    (hf2 : w'.faults (w'.faultIdx + 2) = none)
    (hfind : w'.secrets.find?
      (fun s => s.name == ADMIN_SECRET_NAME && s.ns == ns) = some sec)
    (u p : String) (w1 : World)
    (hrun : ensure_admin_secret_generate ns sid w' =
      (Except.ok (u, p), w1)) :
    (ensure_admin_secret ns sid w1).1 = Except.ok (u, p) := by
  have hpred := List.find?_some hfind
  rw [gen_present ns sid w' sec hf0 hf1 hfind] at hrun
  simp only [Prod.mk.injEq, Except.ok.injEq] at hrun
  obtain ⟨⟨hu, hp⟩, hw⟩ := hrun
  subst hw
  subst hu
  subst hp
  have hcomp : ((fun s : KSecret =>
      s.name == ADMIN_SECRET_NAME && s.ns == ns) ∘
      (fun x : KSecret =>
        if x.name == ADMIN_SECRET_NAME && x.ns == ns then
          { x with
            data := dictUpdate x.data
                      [("username", "admin"),
                       ("password", (rand_password 20 w').1),
                       ("storeId", sid)] }
        else x)) =
      (fun s : KSecret => s.name == ADMIN_SECRET_NAME && s.ns == ns) := by
    funext x
    by_cases hx : (x.name == ADMIN_SECRET_NAME && x.ns == ns) = true
    · simp [Function.comp, hx]
    · simp [Function.comp, hx]
  have hfind2 : (w'.secrets.map
      (fun x : KSecret =>
        if x.name == ADMIN_SECRET_NAME && x.ns == ns then
          { x with
            data := dictUpdate x.data
                      [("username", "admin"),
                       ("password", (rand_password 20 w').1),
                       ("storeId", sid)] }
        else x)).find?
      (fun s => s.name == ADMIN_SECRET_NAME && s.ns == ns) =
      some ({ sec with
              data := dictUpdate sec.data
                        [("username", "admin"),
                         ("password", (rand_password 20 w').1),
                         ("storeId", sid)] }) := by
    rw [List.find?_map, hcomp, hfind]
    simp only [Option.map_some']
    rw [if_pos hpred]
  rw [ensure_admin_secret_reads ns sid _ _ "admin" (rand_password 20 w').1
    hf2 hfind2
    (by simp only [dictUpdate, List.foldl_cons, List.foldl_nil]
        simp [dictGet_dictSet])
    (by simp only [dictUpdate, List.foldl_cons, List.foldl_nil]
        simp [dictGet_dictSet])
    (by decide) (rand_password_ne_empty 20 (by decide) w')]

/-- C6: when the admin secret already stores a non-empty username and
password, `ensure_admin_secret` returns that pair unchanged and performs no
write (no secret mutation, no password generation); and in a fault-free
world, running the credential step twice returns byte-identical pairs. -/
theorem C6_credential_stability (ns sid : String) (w : World)
    (hf : ∀ i, w.faults i = none) :
    (∀ sec u p,
      w.secrets.find?
        (fun s => s.name == ADMIN_SECRET_NAME && s.ns == ns) = some sec →
      dictGet sec.data "username" = some u →
      dictGet sec.data "password" = some p → u ≠ "" → p ≠ "" →
      ensure_admin_secret ns sid w =
        (Except.ok (u, p),
         { w with
           faultIdx := w.faultIdx + 1,
           trace := w.trace ++
             [Call.readSecretCall ns ADMIN_SECRET_NAME] })) ∧
    (∀ u p w1, ensure_admin_secret ns sid w = (Except.ok (u, p), w1) →
      (ensure_admin_secret ns sid w1).1 = Except.ok (u, p)) := by
  constructor
  · intro sec u p hfind hu hp hu0 hp0
    exact ensure_admin_secret_reads ns sid w sec u p (hf _) hfind hu hp hu0
      hp0
  · intro u p w1 hrun
    rcases hfind : w.secrets.find?
      (fun s => s.name == ADMIN_SECRET_NAME && s.ns == ns) with _ | sec
    · have hred : ensure_admin_secret ns sid w =
          ensure_admin_secret_generate ns sid
            { w with
              faultIdx := w.faultIdx + 1,
              trace := w.trace ++
                [Call.readSecretCall ns ADMIN_SECRET_NAME] } := by
        simp only [ensure_admin_secret, read_secret, hf w.faultIdx, hfind]
        simp [Err.isApiCode]
      rw [hred] at hrun
      exact gen_then_stable_absent ns sid
        { w with
          faultIdx := w.faultIdx + 1,
          trace := w.trace ++ [Call.readSecretCall ns ADMIN_SECRET_NAME] }
        (hf _) (hf _) hfind u p w1 hrun
    · rcases hu1 : dictGet sec.data "username" with _ | u0
      · have hred : ensure_admin_secret ns sid w =
            ensure_admin_secret_generate ns sid
              { w with
                faultIdx := w.faultIdx + 1,
                trace := w.trace ++
                  [Call.readSecretCall ns ADMIN_SECRET_NAME] } := by
          simp only [ensure_admin_secret, read_secret, hf w.faultIdx, hfind,
            hu1]
        rw [hred] at hrun
        exact gen_then_stable_present ns sid
          { w with
            faultIdx := w.faultIdx + 1,
            trace := w.trace ++ [Call.readSecretCall ns ADMIN_SECRET_NAME] }
          sec (hf _) (hf _) (hf _) hfind u p w1 hrun
      · rcases hp1 : dictGet sec.data "password" with _ | p0
        · have hred : ensure_admin_secret ns sid w =
              ensure_admin_secret_generate ns sid
                { w with
                  faultIdx := w.faultIdx + 1,
                  trace := w.trace ++
                    [Call.readSecretCall ns ADMIN_SECRET_NAME] } := by
            simp only [ensure_admin_secret, read_secret, hf w.faultIdx,
              hfind, hu1, hp1]
          rw [hred] at hrun
          exact gen_then_stable_present ns sid
            { w with
              faultIdx := w.faultIdx + 1,
              trace := w.trace ++ [Call.readSecretCall ns ADMIN_SECRET_NAME] }
            sec (hf _) (hf _) (hf _) hfind u p w1 hrun
        · by_cases hok : u0 ≠ "" ∧ p0 ≠ ""
          · rw [ensure_admin_secret_reads ns sid w sec u0 p0 (hf _) hfind
              hu1 hp1 hok.1 hok.2] at hrun
            simp only [Prod.mk.injEq, Except.ok.injEq] at hrun
            obtain ⟨⟨hu, hp⟩, hw⟩ := hrun
            subst hw
            subst hu
            subst hp
            rw [ensure_admin_secret_reads ns sid
              { w with
                faultIdx := w.faultIdx + 1,
                trace := w.trace ++
                  [Call.readSecretCall ns ADMIN_SECRET_NAME] }
              sec u0 p0 (hf _) hfind hu1 hp1 hok.1 hok.2]
          · have hred : ensure_admin_secret ns sid w =
                ensure_admin_secret_generate ns sid
                  { w with
                    faultIdx := w.faultIdx + 1,
                    trace := w.trace ++
                      [Call.readSecretCall ns ADMIN_SECRET_NAME] } := by
              simp only [ensure_admin_secret, read_secret, hf w.faultIdx,
                hfind, hu1, hp1]
              rw [if_neg hok]
            rw [hred] at hrun
            exact gen_then_stable_present ns sid
              { w with
                faultIdx := w.faultIdx + 1,
                trace := w.trace ++
                  [Call.readSecretCall ns ADMIN_SECRET_NAME] }
              sec (hf _) (hf _) (hf _) hfind u p w1 hrun

/-- A world holding a stored admin credential pair (for the C6 witness). -/
def storedSecretWorld : World :=
  { baseWorld with secrets :=
      [KSecret.mk ADMIN_SECRET_NAME "store-acme-1"
        [("username", "admin"), ("password", "s3cret"), ("storeId", "acme-1")]] }

/-- Witness for C6: the stored pair is returned unchanged. -/
theorem C6_credential_stability_witness :
    ensure_admin_secret "store-acme-1" "acme-1" storedSecretWorld =
      (Except.ok ("admin", "s3cret"),
       { storedSecretWorld with
         faultIdx := storedSecretWorld.faultIdx + 1,
         trace := storedSecretWorld.trace ++
           [Call.readSecretCall "store-acme-1" ADMIN_SECRET_NAME] }) :=
  (C6_credential_stability "store-acme-1" "acme-1" storedSecretWorld
      (fun _ => rfl)).1
    (KSecret.mk ADMIN_SECRET_NAME "store-acme-1"
      [("username", "admin"), ("password", "s3cret"), ("storeId", "acme-1")])
    "admin" "s3cret" (by decide) (by decide) (by decide) (by decide)
    (by decide)

/-- C2: a create/resume reconciliation in the platform namespace whose
`spec.engine` is present but not a registered engine writes
`status.phase = Failed` with `lastError` naming the unsupported engine,
appends a `Failed` event, raises `kopf.PermanentError`, and mutates nothing
else: namespaces, secrets, finalizers and the gate are untouched, and the
only call performed is the status patch. -/
theorem C2_unknown_engine (name eng : String) (sid : Option String)
    (meta : Meta) (w : World)
    (h1 : eng ≠ "woocommerce") (h2 : eng ≠ "medusa") :
    (reconcile_store name PLATFORM_NAMESPACE ⟨some eng, sid⟩ meta w).1 =
      Except.error (Err.permanent (unsupportedEngineMsg eng)) ∧
    dictGet (reconcile_store name PLATFORM_NAMESPACE ⟨some eng, sid⟩ meta
        w).2.store.status "phase" = some (StatusVal.s "Failed") ∧
    dictGet (reconcile_store name PLATFORM_NAMESPACE ⟨some eng, sid⟩ meta
        w).2.store.status "lastError" =
      some (StatusVal.s (unsupportedEngineMsg eng)) ∧
    (∃ ts, (getEventsList (reconcile_store name PLATFORM_NAMESPACE
        ⟨some eng, sid⟩ meta w).2.store.status).getLast? =
      some (StoreEvent.mk "Failed" (unsupportedEngineMsg eng) ts)) ∧
    (reconcile_store name PLATFORM_NAMESPACE ⟨some eng, sid⟩ meta
      w).2.namespaces = w.namespaces ∧
    (reconcile_store name PLATFORM_NAMESPACE ⟨some eng, sid⟩ meta
      w).2.secrets = w.secrets ∧
    (reconcile_store name PLATFORM_NAMESPACE ⟨some eng, sid⟩ meta
      w).2.store.finalizers = w.store.finalizers ∧
    (reconcile_store name PLATFORM_NAMESPACE ⟨some eng, sid⟩ meta
      w).2.permits = w.permits ∧
    (reconcile_store name PLATFORM_NAMESPACE ⟨some eng, sid⟩ meta
      w).2.trace = w.trace ++ [Call.statusPatchCall name] := by
  have hlook : engineHandlersGet eng = none := by
    simp [engineHandlersGet, ENGINE_HANDLERS, dictGet, Ne.symm h1, Ne.symm h2]
  have key : reconcile_store name PLATFORM_NAMESPACE ⟨some eng, sid⟩ meta w =
      (Except.error (Err.permanent (unsupportedEngineMsg eng)),
       patch_store_status name (some "Failed") (some "Failed")
         (some (unsupportedEngineMsg eng))
         [("lastError", some (StatusVal.s (unsupportedEngineMsg eng)))] []
         w) := by
    unfold reconcile_store
    rw [if_neg (by simp)]
    simp only [Option.getD]
    rw [hlook]
  rw [key]
  refine ⟨rfl, ?_, ?_, ?_, rfl, rfl, rfl, rfl, rfl⟩
  · show dictGet (patchStatusDict w.store.status (some "Failed")
      (some "Failed") (some (unsupportedEngineMsg eng))
      [("lastError", some (StatusVal.s (unsupportedEngineMsg eng)))] []
      w.clock).1 "phase" = some (StatusVal.s "Failed")
    rw [dictGet_patchStatusDict _ _ _ _ _ _ _ _ (by decide) (by decide)
      (by decide)]
    simp only [applySetFields, List.foldl_cons, List.foldl_nil]
    rw [dictGet_dictSet, if_neg (by decide), dictGet_dictSet, if_pos rfl]
  · show dictGet (patchStatusDict w.store.status (some "Failed")
      (some "Failed") (some (unsupportedEngineMsg eng))
      [("lastError", some (StatusVal.s (unsupportedEngineMsg eng)))] []
      w.clock).1 "lastError" = some (StatusVal.s (unsupportedEngineMsg eng))
    rw [dictGet_patchStatusDict _ _ _ _ _ _ _ _ (by decide) (by decide)
      (by decide)]
    simp only [applySetFields, List.foldl_cons, List.foldl_nil]
    rw [dictGet_dictSet, if_pos rfl]
  · exact lastEvent_patchStatusDict w.store.status (some "Failed") "Failed"
      (some (unsupportedEngineMsg eng))
      [("lastError", some (StatusVal.s (unsupportedEngineMsg eng)))] [] w.clock

/-! ### Gate neutrality: no operation inside the guarded section touches the
semaphore's permit count or emits a release. -/

/-- `w'` has the same available permits and the same number of recorded gate
releases as `w`. -/
def gateNeutral (w w' : World) : Prop :=
  w'.permits = w.permits ∧
  w'.trace.count Call.releaseGate = w.trace.count Call.releaseGate

theorem gateNeutral_trans {a b c : World} (h1 : gateNeutral a b)
    (h2 : gateNeutral b c) : gateNeutral a c :=
  ⟨h2.1.trans h1.1, h2.2.trans h1.2⟩

theorem count_release_append (t l : List Call) (h : Call.releaseGate ∉ l) :
    (t ++ l).count Call.releaseGate = t.count Call.releaseGate := by
  rw [List.count_append, List.count_eq_zero.mpr h, Nat.add_zero]

theorem gateNeutral_patch_store_status (name : String)
    (ph et em : Option String) (sf : List (String × Option StatusVal))
    (df : List String) (w : World) :
    gateNeutral w (patch_store_status name ph et em sf df w) :=
  ⟨rfl, count_release_append _ _ (by simp)⟩

theorem gateNeutral_read_namespace (ns : String) (w : World) :
    gateNeutral w (read_namespace ns w).2 := by
  refine ⟨rfl, ?_⟩
  simp only [read_namespace]
  cases w.faults w.faultIdx <;> exact count_release_append _ _ (by simp)

theorem gateNeutral_create_namespace (ns : String)
    (labels : List (String × String)) (w : World) :
    gateNeutral w (create_namespace ns labels w).2 := by
  refine ⟨rfl, ?_⟩
  simp only [create_namespace]
  cases w.faults w.faultIdx <;> exact count_release_append _ _ (by simp)

theorem gateNeutral_patch_namespace (ns : String)
    (labels : List (String × String)) (w : World) :
    gateNeutral w (patch_namespace ns labels w).2 := by
  refine ⟨rfl, ?_⟩
  simp only [patch_namespace]
  cases w.faults w.faultIdx <;> exact count_release_append _ _ (by simp)

theorem gateNeutral_read_secret (name ns : String) (w : World) :
    gateNeutral w (read_secret name ns w).2 := by
  refine ⟨rfl, ?_⟩
  simp only [read_secret]
  cases w.faults w.faultIdx <;> exact count_release_append _ _ (by simp)

theorem gateNeutral_create_secret (ns : String) (s : KSecret) (w : World) :
    gateNeutral w (create_secret ns s w).2 := by
  refine ⟨rfl, ?_⟩
  simp only [create_secret]
  cases w.faults w.faultIdx <;> exact count_release_append _ _ (by simp)

theorem gateNeutral_patch_secret (name ns : String)
    (data : List (String × String)) (w : World) :
    gateNeutral w (patch_secret name ns data w).2 := by
  refine ⟨rfl, ?_⟩
  simp only [patch_secret]
  cases w.faults w.faultIdx <;> exact count_release_append _ _ (by simp)

theorem gateNeutral_cluster_side_call (c : Call)
    (hc : c ≠ Call.releaseGate) (w : World) :
    gateNeutral w (cluster_side_call c w).2 := by
  refine ⟨rfl, ?_⟩
  simp only [cluster_side_call]
  cases w.faults w.faultIdx <;>
    exact count_release_append _ _ (by simp [Ne.symm hc])

theorem gateNeutral_run_helm (args : List String) (t : Nat) (w : World) :
    gateNeutral w (run_helm args t w).2 :=
  ⟨rfl, count_release_append _ _ (by simp)⟩

theorem gateNeutral_rand_password (n : Nat) (w : World) :
    gateNeutral w (rand_password n w).2 :=
  ⟨rfl, rfl⟩

theorem gateNeutral_ensure_namespace (ns sid : String) (w : World) :
    gateNeutral w (ensure_namespace ns sid w).2 := by
  unfold ensure_namespace
  rcases hr : read_namespace ns w with ⟨r, w1⟩
  have h1 : gateNeutral w w1 := by
    have := gateNeutral_read_namespace ns w; rwa [hr] at this
  cases r with
  | ok existing =>
    simp only []
    split
    · have := gateNeutral_patch_namespace ns
        (dictUpdate existing.labels
          [(STORE_MANAGED_LABEL, "true"), (STORE_ID_LABEL, sid)]) w1
      exact gateNeutral_trans h1 this
    · exact h1
  | error e =>
    simp only []
    split
    · exact gateNeutral_trans h1 (gateNeutral_create_namespace _ _ w1)
    · exact h1

theorem gateNeutral_apply_resourcequota (ns : String) (w : World) :
    gateNeutral w (apply_resourcequota ns w).2 := by
  unfold apply_resourcequota
  rcases hr : cluster_side_call (Call.quotaCall ns "create") w with ⟨r, w1⟩
  have h1 : gateNeutral w w1 := by
    have := gateNeutral_cluster_side_call (Call.quotaCall ns "create")
      (by simp) w
    rwa [hr] at this
  cases r with
  | ok v => exact h1
  | error e =>
    simp only []
    split
    · exact gateNeutral_trans h1
        (gateNeutral_cluster_side_call _ (by simp) w1)
    · exact h1

theorem gateNeutral_apply_limitrange (ns : String) (w : World) :
    gateNeutral w (apply_limitrange ns w).2 := by
  unfold apply_limitrange
  rcases hr : cluster_side_call (Call.limitRangeCall ns "create") w with ⟨r, w1⟩
  have h1 : gateNeutral w w1 := by
    have := gateNeutral_cluster_side_call (Call.limitRangeCall ns "create")
      (by simp) w
    rwa [hr] at this
  cases r with
  | ok v => exact h1
  | error e =>
    simp only []
    split
    · exact gateNeutral_trans h1
        (gateNeutral_cluster_side_call _ (by simp) w1)
    · exact h1

theorem gateNeutral_apply_networkpolicy_default_deny (ns : String)
    (w : World) :
    gateNeutral w (apply_networkpolicy_default_deny ns w).2 := by
  unfold apply_networkpolicy_default_deny
  rcases hr : cluster_side_call (Call.netPolicyCall ns "default-deny" "create")
    w with ⟨r, w1⟩
  have h1 : gateNeutral w w1 := by
    have := gateNeutral_cluster_side_call
      (Call.netPolicyCall ns "default-deny" "create") (by simp) w
    rwa [hr] at this
  cases r with
  | ok v => exact h1
  | error e =>
    simp only []
    split
    · exact gateNeutral_trans h1
        (gateNeutral_cluster_side_call _ (by simp) w1)
    · exact h1

theorem gateNeutral_apply_networkpolicy_allow_required (ns : String)
    (w : World) :
    gateNeutral w (apply_networkpolicy_allow_required ns w).2 := by
  unfold apply_networkpolicy_allow_required
  rcases hr : cluster_side_call
    (Call.netPolicyCall ns "allow-required" "create") w with ⟨r, w1⟩
  have h1 : gateNeutral w w1 := by
    have := gateNeutral_cluster_side_call
      (Call.netPolicyCall ns "allow-required" "create") (by simp) w
    rwa [hr] at this
  cases r with
  | ok v => exact h1
  | error e =>
    simp only []
    split
    · exact gateNeutral_trans h1
        (gateNeutral_cluster_side_call _ (by simp) w1)
    · exact h1

theorem gateNeutral_ensure_namespace_resources (ns : String) (w : World) :
    gateNeutral w (ensure_namespace_resources ns w).2 := by
  unfold ensure_namespace_resources
  rcases h1 : apply_resourcequota ns w with ⟨r1, w1⟩
  have g1 : gateNeutral w w1 := by
    have := gateNeutral_apply_resourcequota ns w; rwa [h1] at this
  cases r1 with
  | error e => exact g1
  | ok v =>
    simp only []
    rcases h2 : apply_limitrange ns w1 with ⟨r2, w2⟩
    have g2 : gateNeutral w w2 := by
      have := gateNeutral_apply_limitrange ns w1
      rw [h2] at this
      exact gateNeutral_trans g1 this
    cases r2 with
    | error e => exact g2
    | ok v =>
      simp only []
      rcases h3 : apply_networkpolicy_default_deny ns w2 with ⟨r3, w3⟩
      have g3 : gateNeutral w w3 := by
        have := gateNeutral_apply_networkpolicy_default_deny ns w2
        rw [h3] at this
        exact gateNeutral_trans g2 this
      cases r3 with
      | error e => exact g3
      | ok v =>
        simp only []
        rcases h4 : apply_networkpolicy_allow_required ns w3 with ⟨r4, w4⟩
        have g4 : gateNeutral w w4 := by
          have := gateNeutral_apply_networkpolicy_allow_required ns w3
          rw [h4] at this
          exact gateNeutral_trans g3 this
        cases r4 with
        | error e => exact g4
        | ok v => exact g4

theorem gateNeutral_ensure_admin_secret_generate (ns sid : String)
    (w : World) :
    gateNeutral w (ensure_admin_secret_generate ns sid w).2 := by
  unfold ensure_admin_secret_generate
  rcases hrp : rand_password 20 w with ⟨pw, wr⟩
  have g0 : gateNeutral w wr := by
    have := gateNeutral_rand_password 20 w; rwa [hrp] at this
  simp only []
  rcases h1 : create_secret ns
    (KSecret.mk ADMIN_SECRET_NAME ns
      [("username", "admin"), ("password", pw), ("storeId", sid)]) wr
    with ⟨r1, w1⟩
  have g1 : gateNeutral w w1 := by
    have := gateNeutral_create_secret ns
      (KSecret.mk ADMIN_SECRET_NAME ns
        [("username", "admin"), ("password", pw), ("storeId", sid)]) wr
    rw [h1] at this
    exact gateNeutral_trans g0 this
  cases r1 with
  | ok v => exact g1
  | error e =>
    simp only []
    split
    · rcases h2 : patch_secret ADMIN_SECRET_NAME ns
        [("username", "admin"), ("password", pw), ("storeId", sid)] w1
        with ⟨r2, w2⟩
      have g2 : gateNeutral w w2 := by
        have := gateNeutral_patch_secret ADMIN_SECRET_NAME ns
          [("username", "admin"), ("password", pw), ("storeId", sid)] w1
        rw [h2] at this
        exact gateNeutral_trans g1 this
      cases r2 with
      | ok v => exact g2
      | error e2 => exact g2
    · exact g1

theorem gateNeutral_ensure_admin_secret (ns sid : String) (w : World) :
    gateNeutral w (ensure_admin_secret ns sid w).2 := by
  unfold ensure_admin_secret
  rcases hr : read_secret ADMIN_SECRET_NAME ns w with ⟨r, w1⟩
  have g1 : gateNeutral w w1 := by
    have := gateNeutral_read_secret ADMIN_SECRET_NAME ns w
    rwa [hr] at this
  cases r with
  | ok sec =>
    simp only []
    rcases hu : dictGet sec.data "username" with _ | u
    · rcases hp2 : dictGet sec.data "password" with _ | p
      · exact gateNeutral_trans g1
          (gateNeutral_ensure_admin_secret_generate ns sid w1)
      · exact gateNeutral_trans g1
          (gateNeutral_ensure_admin_secret_generate ns sid w1)
    · rcases hp2 : dictGet sec.data "password" with _ | p
      · exact gateNeutral_trans g1
          (gateNeutral_ensure_admin_secret_generate ns sid w1)
      · simp only []
        split
        · exact g1
        · exact gateNeutral_trans g1
            (gateNeutral_ensure_admin_secret_generate ns sid w1)
  | error e =>
    simp only []
    split
    · exact gateNeutral_trans g1
        (gateNeutral_ensure_admin_secret_generate ns sid w1)
    · exact g1

theorem gateNeutral_reconcile_gated (name store_id store_ns host release :
    String) (handler : EngineHandler) (generation : Int) (w : World) :
    gateNeutral w
      (reconcile_gated name store_id store_ns host release handler generation
        w).2 := by
  simp only [reconcile_gated]
  have g1 := gateNeutral_patch_store_status name none (some "NamespaceReady")
    (some ("Ensuring namespace " ++ store_ns))
    [("namespace", some (StatusVal.s store_ns))] [] w
  rcases h2 : ensure_namespace store_ns store_id
    (patch_store_status name none (some "NamespaceReady")
      (some ("Ensuring namespace " ++ store_ns))
      [("namespace", some (StatusVal.s store_ns))] [] w) with ⟨r2, w2⟩
  have g2 : gateNeutral w w2 := by
    have := gateNeutral_ensure_namespace store_ns store_id
      (patch_store_status name none (some "NamespaceReady")
        (some ("Ensuring namespace " ++ store_ns))
        [("namespace", some (StatusVal.s store_ns))] [] w)
    rw [h2] at this
    exact gateNeutral_trans g1 this
  cases r2 with
  | error e => exact g2
  | ok v =>
    simp only []
    rcases h3 : ensure_namespace_resources store_ns w2 with ⟨r3, w3⟩
    have g3 : gateNeutral w w3 := by
      have := gateNeutral_ensure_namespace_resources store_ns w2
      rw [h3] at this
      exact gateNeutral_trans g2 this
    cases r3 with
    | error e => exact g3
    | ok v =>
      simp only []
      rcases h4 : ensure_admin_secret store_ns store_id w3 with ⟨r4, w4⟩
      have g4 : gateNeutral w w4 := by
        have := gateNeutral_ensure_admin_secret store_ns store_id w3
        rw [h4] at this
        exact gateNeutral_trans g3 this
      cases r4 with
      | error e => exact g4
      | ok admin =>
        simp only []
        have g5 : gateNeutral w
            (patch_store_status name none (some "HelmInstallStarted")
              (some ("Installing/upgrading release " ++ release)) [] [] w4) :=
          gateNeutral_trans g4
            (gateNeutral_patch_store_status name none
              (some "HelmInstallStarted")
              (some ("Installing/upgrading release " ++ release)) [] [] w4)
        rcases h6 : run_helm
          (handler.build_helm_args store_id store_ns host admin.1 admin.2)
          (MAX_PROVISION_SECONDS + 60)
          (patch_store_status name none (some "HelmInstallStarted")
            (some ("Installing/upgrading release " ++ release)) [] [] w4)
          with ⟨r6, w6⟩
        have g6 : gateNeutral w w6 := by
          have := gateNeutral_run_helm
            (handler.build_helm_args store_id store_ns host admin.1 admin.2)
            (MAX_PROVISION_SECONDS + 60)
            (patch_store_status name none (some "HelmInstallStarted")
              (some ("Installing/upgrading release " ++ release)) [] [] w4)
          rw [h6] at this
          exact gateNeutral_trans g5 this
        cases r6 with
        | error e => exact g6
        | ok v =>
          simp only []
          refine gateNeutral_trans g6 ?_
          refine gateNeutral_trans
            (⟨rfl, rfl⟩ : gateNeutral w6 { w6 with clock := w6.clock + 1 }) ?_
          exact gateNeutral_patch_store_status _ _ _ _ _ _ _

theorem gateNeutral_reconcile_failed_write (name store_ns release : String)
    (generation : Int) (e : Err) (w : World) :
    gateNeutral w
      (reconcile_failed_write name store_ns release generation e w).2 :=
  gateNeutral_patch_store_status _ _ _ _ _ _ _

theorem patch_store_status_permits (name : String) (ph et em : Option String)
    (sf : List (String × Option StatusVal)) (df : List String) (w : World) :
    (patch_store_status name ph et em sf df w).permits = w.permits := rfl

theorem sem_acquire_fst (t : Nat) (w : World) :
    (sem_acquire t w).1 = (w.permits != 0) := rfl

theorem sem_acquire_snd_permits (t : Nat) (w : World) :
    (sem_acquire t w).2.permits =
      w.permits - (if (w.permits != 0) = true then 1 else 0) := rfl

/-- C5: every completed `reconcile_store` call leaves the gate's
available-permit count unchanged, and an acquired guarded section releases
the gate exactly once on every exit path (normal return or any raised
exception): its final permit count is the entry count plus the one release,
and exactly one gate release is recorded. -/
theorem C5_gate_released (name ns store_id store_ns host release : String)
    (spec : StoreSpec) (meta : Meta) (handler : EngineHandler)
    (generation : Int) (w wg : World) :
    (reconcile_store name ns spec meta w).2.permits = w.permits ∧
    (reconcile_guarded name store_id store_ns host release handler generation
      wg).2.permits = wg.permits + 1 ∧
    (reconcile_guarded name store_id store_ns host release handler generation
      wg).2.trace.count Call.releaseGate =
      wg.trace.count Call.releaseGate + 1 := by
  have hg : ∀ (n0 sid0 sns0 h0 r0 : String) (hd0 : EngineHandler)
      (g0 : Int) (w0 : World),
      (reconcile_guarded n0 sid0 sns0 h0 r0 hd0 g0 w0).2.permits =
        w0.permits + 1 ∧
      (reconcile_guarded n0 sid0 sns0 h0 r0 hd0 g0 w0).2.trace.count
        Call.releaseGate = w0.trace.count Call.releaseGate + 1 := by
    intro n0 sid0 sns0 h0 r0 hd0 g0 w0
    simp only [reconcile_guarded]
    rcases hgd : reconcile_gated n0 sid0 sns0 h0 r0 hd0 g0 w0 with ⟨r, w1⟩
    have g1 : gateNeutral w0 w1 := by
      have := gateNeutral_reconcile_gated n0 sid0 sns0 h0 r0 hd0 g0 w0
      rwa [hgd] at this
    cases r with
    | ok v =>
      simp only []
      constructor
      · show (sem_release w1).permits = w0.permits + 1
        simp [sem_release, g1.1]
      · show (sem_release w1).trace.count Call.releaseGate =
          w0.trace.count Call.releaseGate + 1
        simp [sem_release, List.count_append, g1.2]
    | error e =>
      simp only []
      rcases hfw : reconcile_failed_write n0 sns0 r0 g0 e w1 with ⟨r2, w2⟩
      have g2 : gateNeutral w0 w2 := by
        have := gateNeutral_reconcile_failed_write n0 sns0 r0 g0 e w1
        rw [hfw] at this
        exact gateNeutral_trans g1 this
      constructor
      · show (sem_release w2).permits = w0.permits + 1
        simp [sem_release, g2.1]
      · show (sem_release w2).trace.count Call.releaseGate =
          w0.trace.count Call.releaseGate + 1
        simp [sem_release, List.count_append, g2.2]
  refine ⟨?_,
    (hg name store_id store_ns host release handler generation wg).1,
    (hg name store_id store_ns host release handler generation wg).2⟩
  simp only [reconcile_store]
  split
  · rfl
  · split
    · rfl
    · rename_i x0 handler0 heq
      have ha : (add_finalizer name w).permits = w.permits := by
        unfold add_finalizer; split <;> rfl
      split
      · rename_i hacq
        rw [(hg name (spec.storeId.getD name)
          (store_namespace (spec.storeId.getD name))
          (store_host (spec.storeId.getD name))
          (handler0.build_release_name (spec.storeId.getD name)) handler0
          (meta.generation.getD 0) _).1]
        simp only [sem_acquire_fst, patch_store_status_permits, ha] at hacq
        simp only [sem_acquire_snd_permits, patch_store_status_permits, ha]
        have hne : w.permits ≠ 0 := by simpa using hacq
        rw [if_pos hacq]
        omega
      · rename_i hacq
        simp only [sem_acquire_fst, patch_store_status_permits, ha] at hacq
        simp only [sem_acquire_snd_permits, patch_store_status_permits, ha]
        have hz : w.permits = 0 := by simpa using hacq
        simp [hz]

theorem sem_release_store (w : World) : (sem_release w).store = w.store :=
  rfl

theorem sem_release_permits (w : World) :
    (sem_release w).permits = w.permits + 1 := rfl

theorem patch_store_status_store_status (name : String)
    (ph et em : Option String) (sf : List (String × Option StatusVal))
    (df : List String) (w : World) :
    (patch_store_status name ph et em sf df w).store.status =
      (patchStatusDict w.store.status ph et em sf df w.clock).1 := rfl

/-- The status dict written by the `except Exception` handler of the gated
section: `Failed` phase, `lastError`, retained release / namespace /
observedGeneration, and a final `Failed` event. -/
theorem failed_write_dict_facts (st : List (String × StatusVal))
    (msg release ns : String) (generation : Int) (c : Nat) :
    dictGet (patchStatusDict st (some "Failed") (some "Failed") (some msg)
      [("lastError", some (StatusVal.s msg)),
       ("releaseName", some (StatusVal.s release)),
       ("namespace", some (StatusVal.s ns)),
       ("observedGeneration", some (StatusVal.i generation))]
      ["adminPassword", "adminUser"] c).1 "phase" =
        some (StatusVal.s "Failed") ∧
    dictGet (patchStatusDict st (some "Failed") (some "Failed") (some msg)
      [("lastError", some (StatusVal.s msg)),
       ("releaseName", some (StatusVal.s release)),
       ("namespace", some (StatusVal.s ns)),
       ("observedGeneration", some (StatusVal.i generation))]
      ["adminPassword", "adminUser"] c).1 "lastError" =
        some (StatusVal.s msg) ∧
    dictGet (patchStatusDict st (some "Failed") (some "Failed") (some msg)
      [("lastError", some (StatusVal.s msg)),
       ("releaseName", some (StatusVal.s release)),
       ("namespace", some (StatusVal.s ns)),
       ("observedGeneration", some (StatusVal.i generation))]
      ["adminPassword", "adminUser"] c).1 "releaseName" =
        some (StatusVal.s release) ∧
    dictGet (patchStatusDict st (some "Failed") (some "Failed") (some msg)
      [("lastError", some (StatusVal.s msg)),
       ("releaseName", some (StatusVal.s release)),
       ("namespace", some (StatusVal.s ns)),
       ("observedGeneration", some (StatusVal.i generation))]
      ["adminPassword", "adminUser"] c).1 "namespace" =
        some (StatusVal.s ns) ∧
    dictGet (patchStatusDict st (some "Failed") (some "Failed") (some msg)
      [("lastError", some (StatusVal.s msg)),
       ("releaseName", some (StatusVal.s release)),
       ("namespace", some (StatusVal.s ns)),
       ("observedGeneration", some (StatusVal.i generation))]
      ["adminPassword", "adminUser"] c).1 "observedGeneration" =
        some (StatusVal.i generation) ∧
    (∃ ts, (getEventsList (patchStatusDict st (some "Failed") (some "Failed")
      (some msg)
      [("lastError", some (StatusVal.s msg)),
       ("releaseName", some (StatusVal.s release)),
       ("namespace", some (StatusVal.s ns)),
       ("observedGeneration", some (StatusVal.i generation))]
      ["adminPassword", "adminUser"] c).1).getLast? =
        some (StoreEvent.mk "Failed" msg ts)) := by
  refine ⟨?_, ?_, ?_, ?_, ?_,
    lastEvent_patchStatusDict st (some "Failed") "Failed" (some msg) _ _ c⟩ <;>
  · rw [dictGet_patchStatusDict _ _ _ _ _ _ _ _ (by decide) (by decide)
      (by decide), dictGet_foldl_dictPop _ _ _ (by decide)]
    simp only [applySetFields, List.foldl_cons, List.foldl_nil]
    simp [dictGet_dictSet]

/-- C8: any exception raised inside the gated provisioning section makes
the controller write `phase=Failed` with `lastError` equal to the
exception's message, retain `releaseName` / `namespace` /
`observedGeneration` in status, append a `Failed` event, release the gate,
and re-raise the same exception. -/
theorem C8_gated_failure_reraise (name store_id store_ns host release :
    String) (handler : EngineHandler) (generation : Int) (w w1 : World)
    (e : Err)
    (hgated : reconcile_gated name store_id store_ns host release handler
      generation w = (Except.error e, w1)) :
    (reconcile_guarded name store_id store_ns host release handler generation
      w).1 = Except.error e ∧
    dictGet (reconcile_guarded name store_id store_ns host release handler
      generation w).2.store.status "phase" = some (StatusVal.s "Failed") ∧
    dictGet (reconcile_guarded name store_id store_ns host release handler
      generation w).2.store.status "lastError" =
      some (StatusVal.s e.message) ∧
    dictGet (reconcile_guarded name store_id store_ns host release handler
      generation w).2.store.status "releaseName" =
      some (StatusVal.s release) ∧
    dictGet (reconcile_guarded name store_id store_ns host release handler
      generation w).2.store.status "namespace" =
      some (StatusVal.s store_ns) ∧
    dictGet (reconcile_guarded name store_id store_ns host release handler
      generation w).2.store.status "observedGeneration" =
      some (StatusVal.i generation) ∧
    (∃ ts, (getEventsList (reconcile_guarded name store_id store_ns host
      release handler generation w).2.store.status).getLast? =
      some (StoreEvent.mk "Failed" e.message ts)) ∧
    (reconcile_guarded name store_id store_ns host release handler generation
      w).2.permits = w1.permits + 1 := by
  simp only [reconcile_guarded, hgated, reconcile_failed_write]
  have hfacts := failed_write_dict_facts w1.store.status e.message release
    store_ns generation w1.clock
  refine ⟨by first | rfl | trivial, ?_, ?_, ?_, ?_, ?_, ?_,
    by first | rfl | trivial⟩ <;>
    simp only [sem_release_store, patch_store_status_store_status]
  · exact hfacts.1
  · exact hfacts.2.1
  · exact hfacts.2.2.1
  · exact hfacts.2.2.2.1
  · exact hfacts.2.2.2.2.1
  · exact hfacts.2.2.2.2.2

/-- A world whose very first cluster API call faults with a 500 (for the C8
witness: the namespace read inside the gated section raises). -/
def faultyWorld : World :=
  { baseWorld with faults := fun _ => some (500, "boom") }

/-- Witness for C8: a concrete gated section whose namespace step raises. -/
theorem C8_gated_failure_reraise_witness :
    (reconcile_guarded "acme-1" "acme-1" "store-acme-1"
      "acme-1.127.0.0.1.nip.io" "woocommerce-acme-1" woocommerceHandler 0
      faultyWorld).1 = Except.error (Err.api 500 "boom") ∧
    dictGet (reconcile_guarded "acme-1" "acme-1" "store-acme-1"
      "acme-1.127.0.0.1.nip.io" "woocommerce-acme-1" woocommerceHandler 0
      faultyWorld).2.store.status "phase" = some (StatusVal.s "Failed") :=
  ⟨(C8_gated_failure_reraise "acme-1" "acme-1" "store-acme-1"
      "acme-1.127.0.0.1.nip.io" "woocommerce-acme-1" woocommerceHandler 0
      faultyWorld _ (Err.api 500 "boom") rfl).1,
   (C8_gated_failure_reraise "acme-1" "acme-1" "store-acme-1"
      "acme-1.127.0.0.1.nip.io" "woocommerce-acme-1" woocommerceHandler 0
      faultyWorld _ (Err.api 500 "boom") rfl).2.1⟩

/-- The status facts produced by the lock-timeout `Failed` write, for any
starting world. -/
theorem lock_timeout_status_facts (name : String) (B : World) :
    dictGet (patch_store_status name (some "Failed") (some "Failed")
        (some "Provisioning lock timeout")
        [("lastError", some (StatusVal.s "Provisioning lock timeout"))] []
        B).store.status "phase" = some (StatusVal.s "Failed") ∧
    dictGet (patch_store_status name (some "Failed") (some "Failed")
        (some "Provisioning lock timeout")
        [("lastError", some (StatusVal.s "Provisioning lock timeout"))] []
        B).store.status "lastError" =
      some (StatusVal.s "Provisioning lock timeout") ∧
    (∃ ts, (getEventsList (patch_store_status name (some "Failed")
        (some "Failed") (some "Provisioning lock timeout")
        [("lastError", some (StatusVal.s "Provisioning lock timeout"))] []
        B).store.status).getLast? =
      some (StoreEvent.mk "Failed" "Provisioning lock timeout" ts)) := by
  refine ⟨?_, ?_, ?_⟩
  · show dictGet (patchStatusDict B.store.status (some "Failed")
      (some "Failed") (some "Provisioning lock timeout")
      [("lastError", some (StatusVal.s "Provisioning lock timeout"))] []
      B.clock).1 "phase" = some (StatusVal.s "Failed")
    rw [dictGet_patchStatusDict _ _ _ _ _ _ _ _ (by decide) (by decide)
      (by decide)]
    simp only [applySetFields, List.foldl_cons, List.foldl_nil]
    rw [dictGet_dictSet, if_neg (by decide), dictGet_dictSet, if_pos rfl]
  · show dictGet (patchStatusDict B.store.status (some "Failed")
      (some "Failed") (some "Provisioning lock timeout")
      [("lastError", some (StatusVal.s "Provisioning lock timeout"))] []
      B.clock).1 "lastError" =
        some (StatusVal.s "Provisioning lock timeout")
    rw [dictGet_patchStatusDict _ _ _ _ _ _ _ _ (by decide) (by decide)
      (by decide)]
    simp only [applySetFields, List.foldl_cons, List.foldl_nil]
    rw [dictGet_dictSet, if_pos rfl]
  · exact lastEvent_patchStatusDict B.store.status (some "Failed") "Failed"
      (some "Provisioning lock timeout")
      [("lastError", some (StatusVal.s "Provisioning lock timeout"))] []
      B.clock

/-- C4: with the gate exhausted, a provisioning reconciliation acquires the
gate with bounded wait `MAX_PROVISION_SECONDS`, and on timeout writes
`Failed` with a lock-timeout `lastError` and a `Failed` event, raises
`kopf.TemporaryError` with delay 15, and performs no namespace, secret or
installer operation. -/
theorem C4_gate_timeout (name : String) (spec : StoreSpec) (meta : Meta)
    (handler : EngineHandler) (w : World)
    (hh : engineHandlersGet (spec.engine.getD "woocommerce") = some handler)
    (hp : w.permits = 0) :
    (reconcile_store name PLATFORM_NAMESPACE spec meta w).1 =
      Except.error (Err.temporary "Provisioning lock timeout" 15) ∧
    dictGet (reconcile_store name PLATFORM_NAMESPACE spec meta
        w).2.store.status "phase" = some (StatusVal.s "Failed") ∧
    dictGet (reconcile_store name PLATFORM_NAMESPACE spec meta
        w).2.store.status "lastError" =
      some (StatusVal.s "Provisioning lock timeout") ∧
    (∃ ts, (getEventsList (reconcile_store name PLATFORM_NAMESPACE spec meta
        w).2.store.status).getLast? =
      some (StoreEvent.mk "Failed" "Provisioning lock timeout" ts)) ∧
    Call.acquireGate MAX_PROVISION_SECONDS false ∈
      ((reconcile_store name PLATFORM_NAMESPACE spec meta w).2.trace.drop
        w.trace.length) ∧
    (∀ c ∈ (reconcile_store name PLATFORM_NAMESPACE spec meta w).2.trace.drop
        w.trace.length, isProvisionOp c = false) ∧
    (reconcile_store name PLATFORM_NAMESPACE spec meta w).2.namespaces =
      w.namespaces ∧
    (reconcile_store name PLATFORM_NAMESPACE spec meta w).2.secrets =
      w.secrets ∧
    (reconcile_store name PLATFORM_NAMESPACE spec meta w).2.permits = 0 := by
  obtain ⟨sto, nss, secs, perm, clk, rng0, rngU, fts, fIdx, hR, hU, tr⟩ := w
  simp only at hp
  subst hp
  by_cases hf : FINALIZER ∈ sto.finalizers
  · have key : reconcile_store name PLATFORM_NAMESPACE spec meta
        ⟨sto, nss, secs, 0, clk, rng0, rngU, fts, fIdx, hR, hU, tr⟩ =
        (Except.error (Err.temporary "Provisioning lock timeout" 15),
         patch_store_status name (some "Failed") (some "Failed")
           (some "Provisioning lock timeout")
           [("lastError", some (StatusVal.s "Provisioning lock timeout"))] []
           (sem_acquire MAX_PROVISION_SECONDS
             (patch_store_status name (some "Provisioning")
               (some "ProvisioningStarted")
               (some ("Starting reconcile for " ++
                 spec.engine.getD "woocommerce"))
               [("url", some (StatusVal.s
                  (store_url (spec.storeId.getD name)))),
                ("namespace", some (StatusVal.s
                  (store_namespace (spec.storeId.getD name)))),
                ("releaseName", some (StatusVal.s
                  (handler.build_release_name (spec.storeId.getD name)))),
                ("observedGeneration", some (StatusVal.i
                  (meta.generation.getD 0))),
                ("lastError", none)]
               ["adminPassword", "adminUser"]
               ⟨sto, nss, secs, 0, clk, rng0, rngU, fts, fIdx, hR, hU,
                tr⟩)).2) := by
      simp only [reconcile_store, hh]
      rw [if_neg (by simp), add_finalizer_of_mem _ _ hf]
      rfl
    rw [key]
    refine ⟨rfl, (lock_timeout_status_facts name _).1,
      (lock_timeout_status_facts name _).2.1,
      (lock_timeout_status_facts name _).2.2, ?_, ?_, rfl, rfl, rfl⟩
    · show Call.acquireGate MAX_PROVISION_SECONDS false ∈
        (((tr ++ [Call.statusPatchCall name]) ++
          [Call.acquireGate MAX_PROVISION_SECONDS false]) ++
         [Call.statusPatchCall name]).drop tr.length
      simp [List.append_assoc, List.drop_left]
    · show ∀ c ∈ (((tr ++ [Call.statusPatchCall name]) ++
          [Call.acquireGate MAX_PROVISION_SECONDS false]) ++
         [Call.statusPatchCall name]).drop tr.length, isProvisionOp c = false
      simp only [List.append_assoc, List.drop_left]
      intro c hc
      simp only [List.mem_cons, List.mem_singleton, List.mem_append,
        List.not_mem_nil, or_false] at hc
      rcases hc with rfl | rfl | rfl <;> rfl
  · have key : reconcile_store name PLATFORM_NAMESPACE spec meta
        ⟨sto, nss, secs, 0, clk, rng0, rngU, fts, fIdx, hR, hU, tr⟩ =
        (Except.error (Err.temporary "Provisioning lock timeout" 15),
         patch_store_status name (some "Failed") (some "Failed")
           (some "Provisioning lock timeout")
           [("lastError", some (StatusVal.s "Provisioning lock timeout"))] []
           (sem_acquire MAX_PROVISION_SECONDS
             (patch_store_status name (some "Provisioning")
               (some "ProvisioningStarted")
               (some ("Starting reconcile for " ++
                 spec.engine.getD "woocommerce"))
               [("url", some (StatusVal.s
                  (store_url (spec.storeId.getD name)))),
                ("namespace", some (StatusVal.s
                  (store_namespace (spec.storeId.getD name)))),
                ("releaseName", some (StatusVal.s
                  (handler.build_release_name (spec.storeId.getD name)))),
                ("observedGeneration", some (StatusVal.i
                  (meta.generation.getD 0))),
                ("lastError", none)]
               ["adminPassword", "adminUser"]
               { store := { sto with
                   finalizers := sto.finalizers ++ [FINALIZER] },
                 namespaces := nss, secrets := secs, permits := 0,
                 clock := clk, rng := rng0, rngUsed := rngU, faults := fts,
                 faultIdx := fIdx, helmResults := hR, helmUsed := hU,
                 trace := tr ++ [Call.finalizerPatchCall name] })).2) := by
      simp only [reconcile_store, hh]
      rw [if_neg (by simp), add_finalizer_of_not_mem _ _ hf]
      rfl
    rw [key]
    refine ⟨rfl, (lock_timeout_status_facts name _).1,
      (lock_timeout_status_facts name _).2.1,
      (lock_timeout_status_facts name _).2.2, ?_, ?_, rfl, rfl, rfl⟩
    · show Call.acquireGate MAX_PROVISION_SECONDS false ∈
        ((((tr ++ [Call.finalizerPatchCall name]) ++
           [Call.statusPatchCall name]) ++
          [Call.acquireGate MAX_PROVISION_SECONDS false]) ++
         [Call.statusPatchCall name]).drop tr.length
      simp [List.append_assoc, List.drop_left]
    · show ∀ c ∈ ((((tr ++ [Call.finalizerPatchCall name]) ++
           [Call.statusPatchCall name]) ++
          [Call.acquireGate MAX_PROVISION_SECONDS false]) ++
         [Call.statusPatchCall name]).drop tr.length, isProvisionOp c = false
      simp only [List.append_assoc, List.drop_left]
      intro c hc
      simp only [List.mem_cons, List.mem_singleton, List.mem_append,
        List.not_mem_nil, or_false] at hc
      rcases hc with rfl | rfl | rfl | rfl <;> rfl

/-- Witness for C4 at a fully occupied gate. -/
theorem C4_gate_timeout_witness :
    (reconcile_store "acme-1" PLATFORM_NAMESPACE ⟨some "woocommerce", none⟩ {}
        { baseWorld with permits := 0 }).1 =
      Except.error (Err.temporary "Provisioning lock timeout" 15) ∧
    dictGet (reconcile_store "acme-1" PLATFORM_NAMESPACE
        ⟨some "woocommerce", none⟩ {}
        { baseWorld with permits := 0 }).2.store.status "phase" =
      some (StatusVal.s "Failed") :=
  ⟨(C4_gate_timeout "acme-1" ⟨some "woocommerce", none⟩ {} woocommerceHandler
      { baseWorld with permits := 0 } (by decide) rfl).1,
   (C4_gate_timeout "acme-1" ⟨some "woocommerce", none⟩ {} woocommerceHandler
      { baseWorld with permits := 0 } (by decide) rfl).2.1⟩

/-- Witness for C2 with the unregistered engine `"shopify"`. -/
theorem C2_unknown_engine_witness :
    (reconcile_store "acme-1" PLATFORM_NAMESPACE ⟨some "shopify", none⟩ {}
        baseWorld).1 =
      Except.error (Err.permanent (unsupportedEngineMsg "shopify")) ∧
    dictGet (reconcile_store "acme-1" PLATFORM_NAMESPACE ⟨some "shopify", none⟩
        {} baseWorld).2.store.status "phase" = some (StatusVal.s "Failed") :=
  ⟨(C2_unknown_engine "acme-1" "shopify" none {} baseWorld (by decide)
      (by decide)).1,
   (C2_unknown_engine "acme-1" "shopify" none {} baseWorld (by decide)
      (by decide)).2.1⟩

/-! ### C1 helper lemmas -/

theorem run_helm_world_eq (args : List String) (t : Nat) (w : World) :
    (run_helm args t w).2 =
      { w with helmUsed := w.helmUsed + 1,
               trace := w.trace ++ [Call.helmCall args t] } := rfl

theorem remove_finalizer_namespaces (name : String) (w : World) :
    (remove_finalizer name w).namespaces = w.namespaces := by
  unfold remove_finalizer; split <;> rfl

theorem remove_finalizer_status (name : String) (w : World) :
    (remove_finalizer name w).store.status = w.store.status := by
  unfold remove_finalizer; split <;> rfl

theorem remove_finalizer_not_mem (name : String) (w : World) :
    FINALIZER ∉ (remove_finalizer name w).store.finalizers := by
  unfold remove_finalizer
  split
  · simp [List.mem_filter]
  · rename_i h; exact h

/-- The derived tenant namespace always carries the store prefix. -/
theorem store_namespace_pre (sid : String) :
    STORE_NS_PRE.data.isPrefixOf (store_namespace sid).data = true := by
  rw [List.isPrefixOf_iff_prefix]
  show STORE_NS_PRE.data <+: (STORE_NS_PRE ++ sid).data
  rw [String.data_append STORE_NS_PRE sid]
  exact List.prefix_append _ _

theorem eq_of_nodup_names {l : List KNamespace}
    (h : (l.map KNamespace.name).Nodup) {n m : KNamespace}
    (hn : n ∈ l) (hm : m ∈ l) (heq : n.name = m.name) : n = m :=
  List.inj_on_of_nodup_map h hn hm heq

/-- Fault-free reduction of `_namespace_is_owned` when the name has the
store prefix: it is exactly a labelled read of the namespace. -/
theorem namespace_is_owned_read (ns sid : String) (w : World)
    (nss : List KNamespace)
    (hpre : STORE_NS_PRE.data.isPrefixOf ns.data = true)
    (hf0 : w.faults w.faultIdx = none)
    (hnss : w.namespaces = nss) :
    namespace_is_owned ns sid w =
      (Except.ok (match nss.find? (fun n => n.name == ns) with
        | some m =>
          (dictGet m.labels STORE_MANAGED_LABEL == some "true" &&
           dictGet m.labels STORE_ID_LABEL == some sid)
        | none => false),
       { w with faultIdx := w.faultIdx + 1,
                trace := w.trace ++ [Call.readNamespaceCall ns] }) := by
  subst hnss
  simp only [namespace_is_owned, read_namespace, hpre, hf0]
  cases w.namespaces.find? (fun n => n.name == ns) <;>
    simp [Err.isApiCode]

theorem namespace_is_owned_namespaces (ns sid : String) (w : World) :
    (namespace_is_owned ns sid w).2.namespaces = w.namespaces := by
  simp only [namespace_is_owned, read_namespace]
  split
  · rfl
  · cases w.faults w.faultIdx
    · cases w.namespaces.find? (fun n => n.name == ns) <;>
        simp [Err.isApiCode]
    · simp [Err.isApiCode]
      split <;> rfl

/-- If `_namespace_is_owned` answers `true`, the first namespace with that
name exists and carries both ownership labels. -/
theorem namespace_is_owned_true_spec (ns sid : String) (w : World)
    (h : (namespace_is_owned ns sid w).1 = Except.ok true) :
    ∃ m, w.namespaces.find? (fun n => n.name == ns) = some m ∧
      dictGet m.labels STORE_MANAGED_LABEL = some "true" ∧
      dictGet m.labels STORE_ID_LABEL = some sid := by
  simp only [namespace_is_owned, read_namespace] at h
  by_cases hpre : STORE_NS_PRE.data.isPrefixOf ns.data = true
  · simp only [hpre] at h
    rw [if_neg (by simp)] at h
    cases hfo : w.faults w.faultIdx with
    | some p =>
      rw [hfo] at h
      simp only [] at h
      split at h <;> simp at h
    | none =>
      rw [hfo] at h
      cases hfind : w.namespaces.find? (fun n => n.name == ns) with
      | none => rw [hfind] at h; simp [Err.isApiCode] at h
      | some m =>
        rw [hfind] at h
        simp only [Except.ok.injEq] at h
        obtain ⟨h1, h2⟩ : _ ∧ _ := by simpa using h
        exact ⟨m, rfl, h1, h2⟩
  · rw [if_pos (by simpa using hpre)] at h
    simp at h

/-- The `Deleted` status write leaves `phase = Deleted`, whatever the
starting world. -/
theorem deleted_patch_phase (name store_id : String) (B : World) :
    dictGet (patch_store_status name (some "Deleted") (some "Deleted")
      (some ("Deleted resources for " ++ store_id)) [] []
      B).store.status "phase" = some (StatusVal.s "Deleted") := by
  show dictGet (patchStatusDict B.store.status (some "Deleted")
    (some "Deleted") (some ("Deleted resources for " ++ store_id)) [] []
    B.clock).1 "phase" = some (StatusVal.s "Deleted")
  rw [dictGet_patchStatusDict _ _ _ _ _ _ _ _ (by decide) (by decide)
    (by decide)]
  simp only [applySetFields, List.foldl_nil]
  rw [dictGet_dictSet, if_pos rfl]

/-- Namespace evolution of the delete body: either the namespaces are
untouched, or exactly the store namespace was filtered out and the first
namespace of that name carried both ownership labels. -/
theorem on_delete_body_namespaces (name store_id store_ns release : String)
    (w : World) :
    (on_delete_body name store_id store_ns release w).2.namespaces =
      w.namespaces ∨
    ((on_delete_body name store_id store_ns release w).2.namespaces =
       w.namespaces.filter (fun n => n.name != store_ns) ∧
     ∃ m, w.namespaces.find? (fun n => n.name == store_ns) = some m ∧
       dictGet m.labels STORE_MANAGED_LABEL = some "true" ∧
       dictGet m.labels STORE_ID_LABEL = some store_id) := by
  simp only [on_delete_body]
  rcases hio : namespace_is_owned store_ns store_id
    ((run_helm ["uninstall", release, "-n", store_ns] 300
      (patch_store_status name (some "Deleting") (some "Deleting")
        (some ("Deleting " ++ release))
        [("namespace", some (StatusVal.s store_ns)),
         ("releaseName", some (StatusVal.s release))] [] w)).2)
    with ⟨ro, w3⟩
  have hw3ns : w3.namespaces = w.namespaces := by
    have h := namespace_is_owned_namespaces store_ns store_id
      ((run_helm ["uninstall", release, "-n", store_ns] 300
        (patch_store_status name (some "Deleting") (some "Deleting")
          (some ("Deleting " ++ release))
          [("namespace", some (StatusVal.s store_ns)),
           ("releaseName", some (StatusVal.s release))] [] w)).2)
    rw [hio] at h
    exact h
  cases ro with
  | error e => left; exact hw3ns
  | ok owned =>
    cases owned with
    | false => left; exact hw3ns
    | true =>
      have hm := namespace_is_owned_true_spec store_ns store_id _
        (by rw [hio])
      simp only [reduceIte]
      rcases hdel : delete_namespace store_ns w3 with ⟨rd, w4⟩
      have hw4 : w4.namespaces = w3.namespaces ∨
          w4.namespaces = w3.namespaces.filter
            (fun n => n.name != store_ns) := by
        have h := congrArg (fun x :
          Except Err Unit × World => x.2.namespaces) hdel
        simp only [delete_namespace] at h
        cases hfo : w3.faults w3.faultIdx with
        | some p => rw [hfo] at h; simp at h; left; exact h.symm
        | none => rw [hfo] at h; simp at h; right; exact h.symm
      cases rd with
      | ok v =>
        rcases hw4 with h4 | h4
        · left; exact h4.trans hw3ns
        · right
          exact ⟨h4.trans (congrArg
            (List.filter fun n => n.name != store_ns) hw3ns), hm⟩
      | error e =>
        simp only []
        by_cases h404 : e.isApiCode 404 = true
        · rw [if_pos h404]
          rcases hw4 with h4 | h4
          · left; exact h4.trans hw3ns
          · right
            exact ⟨h4.trans (congrArg
              (List.filter fun n => n.name != store_ns) hw3ns), hm⟩
        · rw [if_neg h404]
          rcases hw4 with h4 | h4
          · left; exact h4.trans hw3ns
          · right
            exact ⟨h4.trans (congrArg
              (List.filter fun n => n.name != store_ns) hw3ns), hm⟩

/-- Fault-free delete body when the ownership check fails (missing
namespace or mismatched labels): nothing is deleted, the body succeeds,
and `phase = Deleted` is written. -/
theorem on_delete_body_not_owned (name store_id store_ns release : String)
    (w : World)
    (hpre : STORE_NS_PRE.data.isPrefixOf store_ns.data = true)
    (hf0 : w.faults w.faultIdx = none)
    (hfalse : (match w.namespaces.find? (fun n => n.name == store_ns) with
       | some m => (dictGet m.labels STORE_MANAGED_LABEL == some "true" &&
                    dictGet m.labels STORE_ID_LABEL == some store_id)
       | none => false) = false) :
    (on_delete_body name store_id store_ns release w).1 = Except.ok () ∧
    (on_delete_body name store_id store_ns release w).2.namespaces =
      w.namespaces ∧
    dictGet (on_delete_body name store_id store_ns release
      w).2.store.status "phase" = some (StatusVal.s "Deleted") := by
  simp only [on_delete_body]
  rw [namespace_is_owned_read store_ns store_id
    ((run_helm ["uninstall", release, "-n", store_ns] 300
      (patch_store_status name (some "Deleting") (some "Deleting")
        (some ("Deleting " ++ release))
        [("namespace", some (StatusVal.s store_ns)),
         ("releaseName", some (StatusVal.s release))] [] w)).2)
    w.namespaces hpre hf0 rfl]
  rw [hfalse]
  exact ⟨rfl, rfl, deleted_patch_phase name store_id _⟩

/-- C9: a create request for an already-existing storeId succeeds with the
existing resource's representation when the engine matches and fails with
HTTP 409 when it differs — both on the initial existence check and on the
create-race path where the cluster reports 409 and the re-read finds the
winner. -/
theorem C9_idempotent_create (req : StoreCreateReq) (ip ua : String)
    (w : ApiWorld)
    (hrate : (w.bucket.dropWhile
      (fun t => w.now - t > RATE_WINDOW_SECONDS)).length <
      CREATE_RATE_LIMIT) :
    (∀ existing,
      get_store_or_none w.stores req.storeId = some existing →
      (existing.engine = some req.engine →
        (create_store req ip ua w).1 = Except.ok (to_store_resp existing)) ∧
      (existing.engine ≠ some req.engine →
        (create_store req ip ua w).1 =
          Except.error (409, conflictDetail req.storeId existing.engine))) ∧
    (get_store_or_none w.stores req.storeId = none →
     enforce_store_quotas w.stores ip = Except.ok () →
     w.createOutcome = some 409 →
     ∀ existing2,
       get_store_or_none w.storesAtRetry req.storeId = some existing2 →
       (existing2.engine = some req.engine →
         (create_store req ip ua w).1 =
           Except.ok (to_store_resp existing2)) ∧
       (existing2.engine ≠ some req.engine →
         (create_store req ip ua w).1 =
           Except.error (409, conflictDetail req.storeId
             existing2.engine))) := by
  constructor
  · intro existing hfind
    constructor
    · intro heq
      simp only [create_store, check_create_rate_limit]
      rw [if_neg (not_le.mpr hrate)]
      simp only [hfind]
      rw [if_neg (by simp [heq])]
    · intro hne
      simp only [create_store, check_create_rate_limit]
      rw [if_neg (not_le.mpr hrate)]
      simp only [hfind]
      rw [if_pos hne]
  · intro habs hquota hco existing2 hfind2
    constructor
    · intro heq
      simp only [create_store, check_create_rate_limit]
      rw [if_neg (not_le.mpr hrate)]
      simp only [habs, hquota, hco]
      rw [if_pos (by decide)]
      simp only [hfind2]
      rw [if_neg (by simp [heq])]
    · intro hne
      simp only [create_store, check_create_rate_limit]
      rw [if_neg (not_le.mpr hrate)]
      simp only [habs, hquota, hco]
      rw [if_pos (by decide)]
      simp only [hfind2]
      rw [if_pos hne]

/-- A concrete store item visible to the API (for the C9 witness). -/
def existingItem : ApiStoreItem :=
  { name := "acme-1", engine := some "woocommerce",
    storeIdField := some "acme-1", requestedByIp := some "9.9.9.9" }

/-- A concrete API world with one existing store (for the C9 witness). -/
def apiWorld1 : ApiWorld :=
  { stores := [existingItem], bucket := [], now := 0 }

/-- Witness for C9: re-creating the same storeId with the same engine
returns the existing representation. -/
theorem C9_idempotent_create_witness :
    (create_store { engine := "woocommerce", storeId := "acme-1" } "1.2.3.4"
      "ua" apiWorld1).1 = Except.ok (to_store_resp existingItem) :=
  ((C9_idempotent_create { engine := "woocommerce", storeId := "acme-1" }
      "1.2.3.4" "ua" apiWorld1 (by decide)).1 existingItem (by decide)).1
    (by decide)

/-- `on_delete` in the platform namespace, written as body-then-finalizer
removal (the `try/finally` shape of the handler). -/
theorem on_delete_eq_platform (name : String) (spec : StoreSpec) (w : World)
    (store_id store_ns release : String)
    (hsid : store_id = spec.storeId.getD name)
    (hsns : store_ns = store_namespace store_id)
    (hrel : release = ((engineHandlersGet (spec.engine.getD
      "woocommerce")).getD woocommerceHandler).build_release_name
      store_id) :
    on_delete name PLATFORM_NAMESPACE spec w =
      ((on_delete_body name store_id store_ns release w).1,
       remove_finalizer name
         (on_delete_body name store_id store_ns release w).2) := by
  subst hsid
  subst hsns
  subst hrel
  simp only [on_delete]
  rw [if_neg (fun hne => hne rfl)]

/-- C1: across every delete reconciliation, a namespace disappears from the
cluster only when it is the store's own `store-`-prefixed namespace and it
carried both ownership labels for this resource's storeId; and when the
ownership check fails (absent namespace, or labels missing / pointing at a
different storeId) a fault-free delete removes no namespace, still ends
with `phase = Deleted`, and removes the finalizer. -/
theorem C1_namespace_ownership (name ns : String) (spec : StoreSpec)
    (w : World) :
    ((w.namespaces.map KNamespace.name).Nodup →
     ∀ n, n ∈ w.namespaces →
      n ∉ (on_delete name ns spec w).2.namespaces →
      (n.name = store_namespace (spec.storeId.getD name) ∧
       STORE_NS_PRE.data.isPrefixOf n.name.data = true ∧
       dictGet n.labels STORE_MANAGED_LABEL = some "true" ∧
       dictGet n.labels STORE_ID_LABEL =
         some (spec.storeId.getD name))) ∧
    (ns = PLATFORM_NAMESPACE → w.faults w.faultIdx = none →
     (match w.namespaces.find?
        (fun n => n.name == store_namespace (spec.storeId.getD name)) with
      | some m =>
        (dictGet m.labels STORE_MANAGED_LABEL == some "true" &&
         dictGet m.labels STORE_ID_LABEL ==
           some (spec.storeId.getD name))
      | none => false) = false →
     ((on_delete name ns spec w).1 = Except.ok () ∧
      (on_delete name ns spec w).2.namespaces = w.namespaces ∧
      dictGet (on_delete name ns spec w).2.store.status "phase" =
        some (StatusVal.s "Deleted") ∧
      FINALIZER ∉ (on_delete name ns spec w).2.store.finalizers)) := by
  by_cases hns : ns = PLATFORM_NAMESPACE
  · subst hns
    have hres := on_delete_eq_platform name spec w _ _ _ rfl rfl rfl
    constructor
    · intro hnodup n hmem hnot
      rw [hres] at hnot
      dsimp only at hnot
      rw [remove_finalizer_namespaces] at hnot
      rcases on_delete_body_namespaces name (spec.storeId.getD name)
          (store_namespace (spec.storeId.getD name))
          (((engineHandlersGet (spec.engine.getD "woocommerce")).getD
            woocommerceHandler).build_release_name
            (spec.storeId.getD name)) w
        with h | ⟨hfil, m, hfind, hl1, hl2⟩
      · exact absurd (by rw [h]; exact hmem) hnot
      · have hnb : ¬ (n.name !=
            store_namespace (spec.storeId.getD name)) = true :=
          fun hp => hnot (by
            rw [hfil]; exact List.mem_filter.mpr ⟨hmem, hp⟩)
        have hname : n.name =
            store_namespace (spec.storeId.getD name) := by
          simpa using hnb
        have hmm : m ∈ w.namespaces := List.mem_of_find?_eq_some hfind
        have hmname : m.name =
            store_namespace (spec.storeId.getD name) := by
          simpa using List.find?_some hfind
        have hnm : n = m := eq_of_nodup_names hnodup hmem hmm
          (hname.trans hmname.symm)
        refine ⟨hname, ?_, ?_, ?_⟩
        · rw [hname]; exact store_namespace_pre _
        · rw [hnm]; exact hl1
        · rw [hnm]; exact hl2
    · intro _ hf0 hfalse
      have hb := on_delete_body_not_owned name (spec.storeId.getD name)
        (store_namespace (spec.storeId.getD name))
        (((engineHandlersGet (spec.engine.getD "woocommerce")).getD
          woocommerceHandler).build_release_name
          (spec.storeId.getD name)) w (store_namespace_pre _) hf0 hfalse
      rw [hres]
      dsimp only
      refine ⟨hb.1, (remove_finalizer_namespaces _ _).trans hb.2.1,
              ?_, remove_finalizer_not_mem _ _⟩
      rw [remove_finalizer_status]
      exact hb.2.2
  · have hres : on_delete name ns spec w = (Except.ok (), w) := by
      simp only [on_delete]
      rw [if_pos hns]
    constructor
    · intro hnodup n hmem hnot
      rw [hres] at hnot
      exact absurd hmem hnot
    · intro hp
      exact absurd hp hns

/-- A tenant namespace owned by storeId `acme` (for the C1 witness). -/
def ownedNs : KNamespace :=
  { name := "store-acme",
    labels := [(STORE_MANAGED_LABEL, "true"), (STORE_ID_LABEL, "acme")] }

/-- A tenant namespace whose storeId label was tampered with (for the C1
witness). -/
def tamperedNs : KNamespace :=
  { name := "store-acme",
    labels := [(STORE_MANAGED_LABEL, "true"), (STORE_ID_LABEL, "evil")] }

/-- A world holding the owned namespace (for the C1 witness). -/
def delWorld : World := { baseWorld with namespaces := [ownedNs] }

/-- A world holding the tampered namespace, with the finalizer present on
the store (for the C1 witness). -/
def tamperedWorld : World :=
  { baseWorld with
      namespaces := [tamperedNs],
      store := { name := "acme-1", finalizers := [FINALIZER],
                 status := [] } }

/-- Witness for C1: the deleted namespace in `delWorld` is the prefixed,
doubly-labelled store namespace, and the tampered-labels delete removes
nothing, succeeds, writes `phase = Deleted`, and drops the finalizer. -/
theorem C1_namespace_ownership_witness :
    (ownedNs.name = store_namespace "acme" ∧
     STORE_NS_PRE.data.isPrefixOf ownedNs.name.data = true ∧
     dictGet ownedNs.labels STORE_MANAGED_LABEL = some "true" ∧
     dictGet ownedNs.labels STORE_ID_LABEL = some "acme") ∧
    ((on_delete "acme-1" PLATFORM_NAMESPACE
        ⟨some "woocommerce", some "acme"⟩ tamperedWorld).1 =
       Except.ok () ∧
     (on_delete "acme-1" PLATFORM_NAMESPACE
        ⟨some "woocommerce", some "acme"⟩ tamperedWorld).2.namespaces =
       tamperedWorld.namespaces ∧
     dictGet (on_delete "acme-1" PLATFORM_NAMESPACE
        ⟨some "woocommerce", some "acme"⟩
        tamperedWorld).2.store.status "phase" =
       some (StatusVal.s "Deleted") ∧
     FINALIZER ∉ (on_delete "acme-1" PLATFORM_NAMESPACE
        ⟨some "woocommerce", some "acme"⟩
        tamperedWorld).2.store.finalizers) :=
  ⟨(C1_namespace_ownership "acme-1" PLATFORM_NAMESPACE
      ⟨some "woocommerce", some "acme"⟩ delWorld).1 (by decide) ownedNs
      (by decide) (by decide),
   (C1_namespace_ownership "acme-1" PLATFORM_NAMESPACE
      ⟨some "woocommerce", some "acme"⟩ tamperedWorld).2 rfl rfl
      (by decide)⟩

end StorePlatform
